import Mathlib

/-!
# FIPLI3 scenario/override engine: shallow embedding and verification

This file embeds the scenario-override core of the FIPLI3 repository
(`backend/database_connection/crud/*.py`, `backend/database_connection/connection.py`)
as executable Lean definitions over an explicit relational store, and proves
properties of the override-upsert and effective-value-resolution operations.

Conventions of the embedding:
* SQLite rows become Lean structures; tables become lists of rows inside `Store`.
* `REAL` columns become `Rat` (the code only stores and compares these values,
  so rational arithmetic is a faithful model of the comparisons performed);
  `INTEGER` year/age/id columns become `Int`; nullable columns become `Option`.
* `cursor.lastrowid` is modelled by a monotonically increasing `next_id` counter
  in the store (the spec fixes primary keys as opaque increasing integers).
* Each CRUD operation is a function `Store → Except DbError α × Store`.  The
  returned store is the observable post-state.  Failure paths inside a
  `DatabaseConnection.transaction` block are rolled back by the `transact`
  combinator, mirroring `connection.py`'s BEGIN/COMMIT/ROLLBACK wrapper.
* Python `ValueError` raised by validation code is `DbError.validationError`;
  store-level integrity failures are `DbError.constraintViolation`.
-/

/-- Errors surfaced by the embedded operations. `validationError` models the
Python `ValueError`s raised by the CRUD layer; `constraintViolation` models
SQLite constraint failures (foreign key / uniqueness). -/
inductive DbError where
  | validationError (msg : String)
  | constraintViolation (msg : String)
deriving Repr, DecidableEq

/-- Row of `people` (the columns the embedded operations read). -/
structure Person where
  person_id : Int
  household_id : Int
  first_name : String
  last_name : String
  retirement_age : Int
  final_age : Int
deriving Repr, DecidableEq

/-- Row of `plans` (the columns the embedded operations read). -/
structure Plan where
  plan_id : Int
  household_id : Int
  plan_name : String
  reference_person_id : Int
  plan_creation_year : Int
deriving Repr, DecidableEq

/-- Row of `base_assumptions` (1:1 with `plans`). -/
structure BaseAssumptionsRow where
  plan_id : Int
  nest_egg_growth_rate : Rat
  inflation_rate : Rat
  annual_retirement_spending : Rat
deriving Repr, DecidableEq

/-- Row of `asset_categories`. -/
structure AssetCategory where
  asset_category_id : Int
  household_id : Int
  category_name : String
deriving Repr, DecidableEq

/-- Row of `assets`. -/
structure Asset where
  asset_id : Int
  plan_id : Int
  asset_category_id : Int
  asset_name : String
  value : Rat
  include_in_nest_egg : Bool
  independent_growth_rate : Option Rat
deriving Repr, DecidableEq

/-- Row of `asset_owners` (join table between assets and people). -/
structure AssetOwner where
  asset_id : Int
  person_id : Int
deriving Repr, DecidableEq

/-- Row of `asset_growth_adjustments`. -/
structure GrowthAdjustment where
  adjustment_id : Int
  asset_id : Int
  start_year : Int
  end_year : Int
  growth_rate : Rat
deriving Repr, DecidableEq

/-- Row of `liabilities` (the columns the embedded operations read). -/
structure Liability where
  liability_id : Int
  plan_id : Int
  value : Rat
  interest_rate : Option Rat
  include_in_nest_egg : Bool
deriving Repr, DecidableEq

/-- Row of `inflows_outflows` (the columns the embedded operations read). -/
structure InflowOutflow where
  inflow_outflow_id : Int
  plan_id : Int
  flow_type : String
  name : String
  annual_amount : Rat
  start_year : Int
  end_year : Int
  apply_inflation : Bool
deriving Repr, DecidableEq

/-- Row of `retirement_income_plans` (the columns the embedded operations read). -/
structure RetirementIncomePlan where
  income_plan_id : Int
  plan_id : Int
  name : String
  annual_income : Rat
  start_age : Int
  end_age : Option Int
deriving Repr, DecidableEq

/-- Row of `scenario_growth_adjustments` (scenario-scoped growth adjustments,
written by `ScenariosCRUD.add_growth_adjustment`; read here only by
`get_scenario`'s override counting). -/
structure ScenarioGrowthAdjustment where
  adjustment_id : Int
  scenario_id : Int
  start_year : Int
  end_year : Int
  growth_rate : Rat
deriving Repr, DecidableEq

/-- Row of `scenarios`. -/
structure Scenario where
  scenario_id : Int
  plan_id : Int
  scenario_name : String
deriving Repr, DecidableEq

/-- Row of `scenario_assumptions`: sparse per-field overrides of the plan's
base assumptions, each field paired with its own overridden flag (exactly the
columns written by `create_scenario` / `update_scenario`). -/
structure ScenarioAssumptions where
  scenario_id : Int
  overrides_nest_egg_growth_rate : Bool
  nest_egg_growth_rate : Option Rat
  overrides_inflation_rate : Bool
  inflation_rate : Option Rat
  overrides_annual_retirement_spending : Bool
  annual_retirement_spending : Option Rat
deriving Repr, DecidableEq

/-- Row of `scenario_person_overrides`.

The columns written by `update_person_overrides` are the scenario/person keys
and the two flagged age fields.  `exclude_from_projection` is *Modelled from
the spec:* the schema file declaring this table is not part of the source
tree; spec §3/§4.3 state every override row carries an `excludeFromProjection`
flag defaulting to false.  The CRUD code in `crud/scenarios.py` never reads or
writes this column, so inserts leave it at the modelled default `false` and
updates leave it untouched. -/
structure ScenarioPersonOverride where
  scenario_id : Int
  person_id : Int
  overrides_retirement_age : Bool
  retirement_age : Option Int
  overrides_final_age : Bool
  final_age : Option Int
  exclude_from_projection : Bool
deriving Repr, DecidableEq

/-- Row of `scenario_assets` (exactly the columns written by `override_asset`;
note there is no overridden-flag column for `include_in_nest_egg`). -/
structure ScenarioAssetOverride where
  scenario_asset_id : Int
  scenario_id : Int
  original_asset_id : Int
  overrides_value : Bool
  value : Option Rat
  overrides_independent_growth_rate : Bool
  independent_growth_rate : Option Rat
  include_in_nest_egg : Bool
  exclude_from_projection : Bool
deriving Repr, DecidableEq

/-- Row of `scenario_liabilities` (columns written by `override_liability`). -/
structure ScenarioLiabilityOverride where
  scenario_item_id : Int
  scenario_id : Int
  original_liability_id : Int
  overrides_value : Bool
  value : Option Rat
  overrides_interest_rate : Bool
  interest_rate : Option Rat
  include_in_nest_egg : Bool
  exclude_from_projection : Bool
deriving Repr, DecidableEq

/-- Row of `scenario_inflows_outflows` (columns written by
`override_inflow_outflow`; `apply_inflation` carries no overridden flag). -/
structure ScenarioInflowOutflowOverride where
  scenario_item_id : Int
  scenario_id : Int
  original_inflow_outflow_id : Int
  overrides_annual_amount : Bool
  annual_amount : Option Rat
  overrides_start_year : Bool
  start_year : Option Int
  overrides_end_year : Bool
  end_year : Option Int
  apply_inflation : Bool
  exclude_from_projection : Bool
deriving Repr, DecidableEq

/-- Row of `scenario_retirement_income` (columns written by
`override_retirement_income`). -/
structure ScenarioRetirementIncomeOverride where
  scenario_item_id : Int
  scenario_id : Int
  original_income_plan_id : Int
  overrides_annual_income : Bool
  annual_income : Option Rat
  overrides_start_age : Bool
  start_age : Option Int
  overrides_end_age : Bool
  end_age : Option Int
  apply_inflation : Bool
  include_in_nest_egg : Bool
  exclude_from_projection : Bool
deriving Repr, DecidableEq

/-- The relational store: one list per table touched by the embedded
operations, plus the id counter modelling SQLite's rowid assignment. -/
structure Store where
  people : List Person
  plans : List Plan
  base_assumptions : List BaseAssumptionsRow
  asset_categories : List AssetCategory
  assets : List Asset
  asset_owners : List AssetOwner
  asset_growth_adjustments : List GrowthAdjustment
  liabilities : List Liability
  inflows_outflows : List InflowOutflow
  retirement_income_plans : List RetirementIncomePlan
  scenarios : List Scenario
  scenario_growth_adjustments : List ScenarioGrowthAdjustment
  scenario_assumptions : List ScenarioAssumptions
  scenario_person_overrides : List ScenarioPersonOverride
  scenario_assets : List ScenarioAssetOverride
  scenario_liabilities : List ScenarioLiabilityOverride
  scenario_inflows_outflows : List ScenarioInflowOutflowOverride
  scenario_retirement_income : List ScenarioRetirementIncomeOverride
  next_id : Int
deriving Repr, DecidableEq

namespace Store

def findPerson (s : Store) (pid : Int) : Option Person :=
  s.people.find? (fun p => p.person_id == pid)

def findPlan (s : Store) (pid : Int) : Option Plan :=
  s.plans.find? (fun p => p.plan_id == pid)

def findScenario (s : Store) (sid : Int) : Option Scenario :=
  s.scenarios.find? (fun sc => sc.scenario_id == sid)

def findAsset (s : Store) (aid : Int) : Option Asset :=
  s.assets.find? (fun a => a.asset_id == aid)

def findLiability (s : Store) (lid : Int) : Option Liability :=
  s.liabilities.find? (fun l => l.liability_id == lid)

def findInflowOutflow (s : Store) (ioid : Int) : Option InflowOutflow :=
  s.inflows_outflows.find? (fun io => io.inflow_outflow_id == ioid)

def findRetirementIncomePlan (s : Store) (rid : Int) : Option RetirementIncomePlan :=
  s.retirement_income_plans.find? (fun r => r.income_plan_id == rid)

def findAssetCategory (s : Store) (cid : Int) : Option AssetCategory :=
  s.asset_categories.find? (fun c => c.asset_category_id == cid)

def findScenarioAssumptions (s : Store) (sid : Int) : Option ScenarioAssumptions :=
  s.scenario_assumptions.find? (fun r => r.scenario_id == sid)

def findPersonOverride (s : Store) (sid pid : Int) : Option ScenarioPersonOverride :=
  s.scenario_person_overrides.find?
    (fun r => r.scenario_id == sid && r.person_id == pid)

def findAssetOverride (s : Store) (sid aid : Int) : Option ScenarioAssetOverride :=
  s.scenario_assets.find?
    (fun r => r.scenario_id == sid && r.original_asset_id == aid)

def findLiabilityOverride (s : Store) (sid lid : Int) : Option ScenarioLiabilityOverride :=
  s.scenario_liabilities.find?
    (fun r => r.scenario_id == sid && r.original_liability_id == lid)

def findInflowOutflowOverride (s : Store) (sid ioid : Int) :
    Option ScenarioInflowOutflowOverride :=
  s.scenario_inflows_outflows.find?
    (fun r => r.scenario_id == sid && r.original_inflow_outflow_id == ioid)

def findRetirementIncomeOverride (s : Store) (sid rid : Int) :
    Option ScenarioRetirementIncomeOverride :=
  s.scenario_retirement_income.find?
    (fun r => r.scenario_id == sid && r.original_income_plan_id == rid)

end Store

/-- `DatabaseConnection.transaction` from `connection.py`: runs the body and,
on any exception, rolls the store back to the pre-transaction state
(`BEGIN` / `COMMIT` / `ROLLBACK`).  `r` is the body's result computed from
`s0`; the body may have performed intermediate writes before failing, which
this combinator discards. -/
def transact {α : Type} (r : Except DbError α × Store) (s0 : Store) :
    Except DbError α × Store :=
  match r with
  | (.ok a, s1) => (.ok a, s1)
  | (.error e, _) => (.error e, s0)

/-- On failure `transact` restores the pre-transaction store. -/
theorem transact_error_store {α : Type} (r : Except DbError α × Store) (s0 : Store)
    (e : DbError) (h : (transact r s0).1 = .error e) : (transact r s0).2 = s0 := by
  cases r with
  | mk res s1 =>
    cases res with
    | ok a => simp [transact] at h
    | error e1 => simp [transact]

/-! ## Override-ledger upsert operations (`crud/scenarios.py`) -/

/-- Body of `override_asset` (`crud/scenarios.py` lines 517-636): validates the
inputs, verifies the asset belongs to the scenario's plan, then upserts the
`scenario_assets` row for `(scenario_id, asset_id)`: supplied fields set their
overridden flag and value, omitted fields are untouched, and
`exclude_from_projection` is always rewritten.  The update statement is keyed
by `scenario_asset_id`, the insert assigns the next rowid. -/
def override_asset_body (s : Store) (scenario_id asset_id : Int)
    (value independent_growth_rate : Option Rat) (include_in_nest_egg : Option Bool)
    (exclude_from_projection : Bool) : Except DbError Int × Store :=
  if value.any (fun v => decide (v < 0)) then
    (.error (.validationError "Asset value cannot be negative"), s)
  else if independent_growth_rate.any (fun g => decide (g < -200) || decide (g > 200)) then
    (.error (.validationError "Growth rate must be between -200 and 200"), s)
  else
    match s.findAsset asset_id, s.findScenario scenario_id with
    | some a, some sc =>
      if a.plan_id != sc.plan_id then
        (.error (.validationError "Asset must belong to the scenario's plan"), s)
      else
        match s.findAssetOverride scenario_id asset_id with
        | some row =>
          let row' : ScenarioAssetOverride :=
            { row with
              overrides_value :=
                if value.isSome then true else row.overrides_value,
              value := if value.isSome then value else row.value,
              overrides_independent_growth_rate :=
                if independent_growth_rate.isSome then true
                else row.overrides_independent_growth_rate,
              independent_growth_rate :=
                if independent_growth_rate.isSome then independent_growth_rate
                else row.independent_growth_rate,
              include_in_nest_egg := include_in_nest_egg.getD row.include_in_nest_egg,
              exclude_from_projection := exclude_from_projection }
          (.ok row.scenario_asset_id,
           { s with scenario_assets :=
                 s.scenario_assets.map (fun r => if r.scenario_asset_id == row.scenario_asset_id then row' else r) })
        | none =>
          let rid := s.next_id
          let row : ScenarioAssetOverride :=
            { scenario_asset_id := rid, scenario_id, original_asset_id := asset_id,
              overrides_value := value.isSome, value,
              overrides_independent_growth_rate := independent_growth_rate.isSome,
              independent_growth_rate,
              include_in_nest_egg := include_in_nest_egg.getD true,
              exclude_from_projection }
          (.ok rid,
           { s with scenario_assets := s.scenario_assets ++ [row],
                    next_id := s.next_id + 1 })
    | _, _ => (.error (.validationError "Asset not found"), s)

/-- `override_asset` wrapped in the transaction combinator. -/
def override_asset (s : Store) (scenario_id asset_id : Int)
    (value independent_growth_rate : Option Rat) (include_in_nest_egg : Option Bool)
    (exclude_from_projection : Bool) : Except DbError Int × Store :=
  transact (override_asset_body s scenario_id asset_id value independent_growth_rate
    include_in_nest_egg exclude_from_projection) s

/-- Body of `override_liability` (`crud/scenarios.py` lines 638-761), the
liability analogue of `override_asset_body`. -/
def override_liability_body (s : Store) (scenario_id liability_id : Int)
    (value interest_rate : Option Rat) (include_in_nest_egg : Option Bool)
    (exclude_from_projection : Bool) : Except DbError Int × Store :=
  if value.any (fun v => decide (v < 0)) then
    (.error (.validationError "Liability value cannot be negative"), s)
  else if interest_rate.any (fun g => decide (g < -200) || decide (g > 200)) then
    (.error (.validationError "Interest rate must be between -200 and 200"), s)
  else
    match s.findLiability liability_id, s.findScenario scenario_id with
    | some l, some sc =>
      if l.plan_id != sc.plan_id then
        (.error (.validationError "Liability must belong to the scenario's plan"), s)
      else
        match s.findLiabilityOverride scenario_id liability_id with
        | some row =>
          let row' : ScenarioLiabilityOverride :=
            { row with
              overrides_value := if value.isSome then true else row.overrides_value,
              value := if value.isSome then value else row.value,
              overrides_interest_rate :=
                if interest_rate.isSome then true else row.overrides_interest_rate,
              interest_rate := if interest_rate.isSome then interest_rate else row.interest_rate,
              include_in_nest_egg := include_in_nest_egg.getD row.include_in_nest_egg,
              exclude_from_projection := exclude_from_projection }
          (.ok row.scenario_item_id,
           { s with scenario_liabilities :=
                 s.scenario_liabilities.map (fun r => if r.scenario_item_id == row.scenario_item_id then row' else r) })
        | none =>
          let rid := s.next_id
          let row : ScenarioLiabilityOverride :=
            { scenario_item_id := rid, scenario_id, original_liability_id := liability_id,
              overrides_value := value.isSome, value,
              overrides_interest_rate := interest_rate.isSome, interest_rate,
              include_in_nest_egg := include_in_nest_egg.getD true,
              exclude_from_projection }
          (.ok rid,
           { s with scenario_liabilities := s.scenario_liabilities ++ [row],
                    next_id := s.next_id + 1 })
    | _, _ => (.error (.validationError "Liability not found"), s)

/-- `override_liability` wrapped in the transaction combinator. -/
def override_liability (s : Store) (scenario_id liability_id : Int)
    (value interest_rate : Option Rat) (include_in_nest_egg : Option Bool)
    (exclude_from_projection : Bool) : Except DbError Int × Store :=
  transact (override_liability_body s scenario_id liability_id value interest_rate
    include_in_nest_egg exclude_from_projection) s

/-- Body of `override_inflow_outflow` (`crud/scenarios.py` lines 763-898).
The start/end ordering check uses the supplied boundary when given and the
*base* row's boundary otherwise (`original_start_year` / `original_end_year`
come from the `inflows_outflows` table); a previously stored override
boundary is not consulted. -/
def override_inflow_outflow_body (s : Store) (scenario_id inflow_outflow_id : Int)
    (annual_amount : Option Rat) (start_year end_year : Option Int)
    (apply_inflation : Option Bool) (exclude_from_projection : Bool) :
    Except DbError Int × Store :=
  match s.findInflowOutflow inflow_outflow_id, s.findScenario scenario_id with
  | some io, some sc =>
    if io.plan_id != sc.plan_id then
      (.error (.validationError "Inflow/outflow must belong to the scenario's plan"), s)
    else
      let effective_start := start_year.getD io.start_year
      let effective_end := end_year.getD io.end_year
      if effective_start > effective_end then
        (.error (.validationError "Start year must be before or equal to end year"), s)
      else
        match s.findInflowOutflowOverride scenario_id inflow_outflow_id with
        | some row =>
          let row' : ScenarioInflowOutflowOverride :=
            { row with
              overrides_annual_amount :=
                if annual_amount.isSome then true else row.overrides_annual_amount,
              annual_amount := if annual_amount.isSome then annual_amount else row.annual_amount,
              overrides_start_year :=
                if start_year.isSome then true else row.overrides_start_year,
              start_year := if start_year.isSome then start_year else row.start_year,
              overrides_end_year :=
                if end_year.isSome then true else row.overrides_end_year,
              end_year := if end_year.isSome then end_year else row.end_year,
              apply_inflation := apply_inflation.getD row.apply_inflation,
              exclude_from_projection := exclude_from_projection }
          (.ok row.scenario_item_id,
           { s with scenario_inflows_outflows :=
                 s.scenario_inflows_outflows.map (fun r => if r.scenario_item_id == row.scenario_item_id then row' else r) })
        | none =>
          let rid := s.next_id
          let row : ScenarioInflowOutflowOverride :=
            { scenario_item_id := rid, scenario_id,
              original_inflow_outflow_id := inflow_outflow_id,
              overrides_annual_amount := annual_amount.isSome, annual_amount,
              overrides_start_year := start_year.isSome, start_year,
              overrides_end_year := end_year.isSome, end_year,
              apply_inflation := apply_inflation.getD false,
              exclude_from_projection }
          (.ok rid,
           { s with scenario_inflows_outflows := s.scenario_inflows_outflows ++ [row],
                    next_id := s.next_id + 1 })
  | _, _ => (.error (.validationError "Inflow/outflow not found"), s)

/-- `override_inflow_outflow` wrapped in the transaction combinator. -/
def override_inflow_outflow (s : Store) (scenario_id inflow_outflow_id : Int)
    (annual_amount : Option Rat) (start_year end_year : Option Int)
    (apply_inflation : Option Bool) (exclude_from_projection : Bool) :
    Except DbError Int × Store :=
  transact (override_inflow_outflow_body s scenario_id inflow_outflow_id annual_amount
    start_year end_year apply_inflation exclude_from_projection) s

/-- Body of `override_retirement_income` (`crud/scenarios.py` lines 900-1042).
As with inflows/outflows, the age-ordering check merges the supplied ages with
the *base* plan's ages; the optional end age is only checked when the merged
end age is present. -/
def override_retirement_income_body (s : Store) (scenario_id income_plan_id : Int)
    (annual_income : Option Rat) (start_age end_age : Option Int)
    (apply_inflation include_in_nest_egg : Option Bool)
    (exclude_from_projection : Bool) : Except DbError Int × Store :=
  match s.findRetirementIncomePlan income_plan_id, s.findScenario scenario_id with
  | some rip, some sc =>
    if rip.plan_id != sc.plan_id then
      (.error (.validationError "Income plan must belong to the scenario's plan"), s)
    else
      let effective_start := start_age.getD rip.start_age
      let effective_end : Option Int :=
        match start_age, end_age with
        | _, some e => some e
        | _, none => rip.end_age
      if effective_end.any (fun e => decide (effective_start > e)) then
        (.error (.validationError "Start age must be before or equal to end age"), s)
      else
        match s.findRetirementIncomeOverride scenario_id income_plan_id with
        | some row =>
          let row' : ScenarioRetirementIncomeOverride :=
            { row with
              overrides_annual_income :=
                if annual_income.isSome then true else row.overrides_annual_income,
              annual_income := if annual_income.isSome then annual_income else row.annual_income,
              overrides_start_age :=
                if start_age.isSome then true else row.overrides_start_age,
              start_age := if start_age.isSome then start_age else row.start_age,
              overrides_end_age :=
                if end_age.isSome then true else row.overrides_end_age,
              end_age := if end_age.isSome then end_age else row.end_age,
              apply_inflation := apply_inflation.getD row.apply_inflation,
              include_in_nest_egg := include_in_nest_egg.getD row.include_in_nest_egg,
              exclude_from_projection := exclude_from_projection }
          (.ok row.scenario_item_id,
           { s with scenario_retirement_income :=
                 s.scenario_retirement_income.map (fun r => if r.scenario_item_id == row.scenario_item_id then row' else r) })
        | none =>
          let rid := s.next_id
          let row : ScenarioRetirementIncomeOverride :=
            { scenario_item_id := rid, scenario_id,
              original_income_plan_id := income_plan_id,
              overrides_annual_income := annual_income.isSome, annual_income,
              overrides_start_age := start_age.isSome, start_age,
              overrides_end_age := end_age.isSome, end_age,
              apply_inflation := apply_inflation.getD false,
              include_in_nest_egg := include_in_nest_egg.getD true,
              exclude_from_projection }
          (.ok rid,
           { s with scenario_retirement_income := s.scenario_retirement_income ++ [row],
                    next_id := s.next_id + 1 })
  | _, _ => (.error (.validationError "Retirement income plan not found"), s)

/-- `override_retirement_income` wrapped in the transaction combinator. -/
def override_retirement_income (s : Store) (scenario_id income_plan_id : Int)
    (annual_income : Option Rat) (start_age end_age : Option Int)
    (apply_inflation include_in_nest_egg : Option Bool)
    (exclude_from_projection : Bool) : Except DbError Int × Store :=
  transact (override_retirement_income_body s scenario_id income_plan_id annual_income
    start_age end_age apply_inflation include_in_nest_egg exclude_from_projection) s

/-- Body of `update_person_overrides` (`crud/scenarios.py` lines 407-515):
verifies the person belongs to the scenario's plan's household, validates the
merged (supplied-else-base) ages, then upserts the `scenario_person_overrides`
row keyed by `(scenario_id, person_id)`.  The function accepts no
exclusion parameter; neither the insert nor the update statement touches an
`exclude_from_projection` column. -/
def update_person_overrides_body (s : Store) (scenario_id person_id : Int)
    (retirement_age final_age : Option Int) : Except DbError Bool × Store :=
  match s.findPerson person_id, s.findScenario scenario_id with
  | some p, some sc =>
    match s.findPlan sc.plan_id with
    | some pl =>
      if p.household_id != pl.household_id then
        (.error (.validationError "Person must belong to the scenario's household"), s)
      else
        let current_retirement_age := retirement_age.getD p.retirement_age
        let current_final_age := final_age.getD p.final_age
        if current_retirement_age ≤ 0 then
          (.error (.validationError "Retirement age must be positive"), s)
        else if current_final_age ≤ current_retirement_age then
          (.error (.validationError "Final age must be greater than retirement age"), s)
        else
          match s.findPersonOverride scenario_id person_id with
          | some row =>
            let row' : ScenarioPersonOverride :=
              { row with
                overrides_retirement_age :=
                  if retirement_age.isSome then true else row.overrides_retirement_age,
                retirement_age :=
                  if retirement_age.isSome then retirement_age else row.retirement_age,
                overrides_final_age :=
                  if final_age.isSome then true else row.overrides_final_age,
                final_age := if final_age.isSome then final_age else row.final_age }
            (.ok true,
             { s with scenario_person_overrides :=
                 s.scenario_person_overrides.map (fun r => if r.scenario_id == scenario_id && r.person_id == person_id then row' else r) })
          | none =>
            (.ok true,
             { s with scenario_person_overrides := s.scenario_person_overrides ++
                 [{ scenario_id, person_id,
                    overrides_retirement_age := retirement_age.isSome, retirement_age,
                    overrides_final_age := final_age.isSome, final_age,
                    exclude_from_projection := false }] })
    | none => (.error (.validationError "Person not found"), s)
  | _, _ => (.error (.validationError "Person not found"), s)

/-- `update_person_overrides` wrapped in the transaction combinator. -/
def update_person_overrides (s : Store) (scenario_id person_id : Int)
    (retirement_age final_age : Option Int) : Except DbError Bool × Store :=
  transact (update_person_overrides_body s scenario_id person_id retirement_age final_age) s

/-! ## Fact-store operations (`crud/assets.py`, `crud/plans.py`) -/

/-- The overlap test executed by `add_growth_adjustment`'s SQL query
(`crud/assets.py` lines 179-190): three disjuncts comparing an existing
adjustment's interval with the candidate `[start_year, end_year]`. -/
def sqlOverlapHit (adj : GrowthAdjustment) (start_year end_year : Int) : Bool :=
  (decide (adj.start_year ≤ start_year) && decide (adj.end_year ≥ start_year)) ||
  (decide (adj.start_year ≤ end_year) && decide (adj.end_year ≥ end_year)) ||
  (decide (adj.start_year ≥ start_year) && decide (adj.end_year ≤ end_year))

/-- Body of `AssetsCRUD.add_growth_adjustment` (`crud/assets.py` lines
148-207): rejects inverted ranges and out-of-range rates, rejects a candidate
hitting the SQL overlap test against any stored adjustment of the asset, and
otherwise inserts the new row. -/
def add_growth_adjustment_body (s : Store) (asset_id start_year end_year : Int)
    (growth_rate : Rat) : Except DbError Int × Store :=
  if start_year > end_year then
    (.error (.validationError "Start year must be before or equal to end year"), s)
  else if growth_rate < -200 ∨ growth_rate > 200 then
    (.error (.validationError "Growth rate must be between -200 and 200"), s)
  else if s.asset_growth_adjustments.any
      (fun adj => adj.asset_id == asset_id && sqlOverlapHit adj start_year end_year) then
    (.error (.validationError "Growth adjustment overlaps with existing adjustment"), s)
  else
    let rid := s.next_id
    let row : GrowthAdjustment :=
      { adjustment_id := rid, asset_id, start_year, end_year, growth_rate }
    (.ok rid,
     { s with asset_growth_adjustments := s.asset_growth_adjustments ++ [row],
              next_id := s.next_id + 1 })

/-- `add_growth_adjustment` wrapped in the transaction combinator. -/
def add_growth_adjustment (s : Store) (asset_id start_year end_year : Int)
    (growth_rate : Rat) : Except DbError Int × Store :=
  transact (add_growth_adjustment_body s asset_id start_year end_year growth_rate) s

/-- Insertion step for ordering growth adjustments by `start_year`
(the query's `ORDER BY start_year`). -/
def insertByStart (a : GrowthAdjustment) : List GrowthAdjustment → List GrowthAdjustment
  | [] => [a]
  | b :: rest =>
    if a.start_year ≤ b.start_year then a :: b :: rest else b :: insertByStart a rest

/-- Insertion sort by `start_year`. -/
def sortByStart : List GrowthAdjustment → List GrowthAdjustment
  | [] => []
  | a :: rest => insertByStart a (sortByStart rest)

/-- `AssetsCRUD.get_growth_adjustments` (`crud/assets.py` lines 433-468):
the asset's adjustments, restricted to those containing `year` when a year is
given, ordered by `start_year`. -/
def get_growth_adjustments (s : Store) (asset_id : Int) (year : Option Int) :
    List GrowthAdjustment :=
  sortByStart ((s.asset_growth_adjustments.filter (fun adj => adj.asset_id == asset_id)).filter
    (fun adj =>
      match year with
      | some y => decide (adj.start_year ≤ y) && decide (adj.end_year ≥ y)
      | none => true))

/-- Sequential `INSERT INTO asset_owners` statements from `create_asset`
(`crud/assets.py` lines 136-140), threading the store through each insert.
The duplicate-pair rejection is *Modelled from the spec:* the schema declaring
`asset_owners` is not in the source tree; spec §6 requires row-level
uniqueness constraints on join keys, so inserting the same
`(asset_id, person_id)` pair twice fails as a store-level constraint
violation. -/
def insertOwnerLinks (asset_id : Int) : List Int → Store → Except DbError Unit × Store
  | [], s => (.ok (), s)
  | o :: rest, s =>
    if s.asset_owners.any (fun l => l.asset_id == asset_id && l.person_id == o) then
      (.error (.constraintViolation "UNIQUE constraint failed: asset_owners"), s)
    else
      insertOwnerLinks asset_id rest
        { s with asset_owners := s.asset_owners ++ [⟨asset_id, o⟩] }

/-- Body of `AssetsCRUD.create_asset` (`crud/assets.py` lines 45-146):
validates value/rate/owner list, resolves the plan's household, verifies all
owners belong to it (the `COUNT(*)` over `people` compared with
`len(owner_ids)`), inserts the asset row and then the owner links. -/
def create_asset_body (s : Store) (plan_id asset_category_id : Int) (asset_name : String)
    (value : Rat) (owner_ids : List Int) (include_in_nest_egg : Bool)
    (independent_growth_rate : Option Rat) : Except DbError Int × Store :=
  if value < 0 then
    (.error (.validationError "Asset value cannot be negative"), s)
  else if independent_growth_rate.any (fun g => decide (g < -200) || decide (g > 200)) then
    (.error (.validationError "Growth rate must be between -200 and 200"), s)
  else if owner_ids.isEmpty then
    (.error (.validationError "At least one owner must be specified"), s)
  else
    match s.findPlan plan_id with
    | none => (.error (.validationError "Invalid plan_id"), s)
    | some pl =>
      let matching := s.people.filter
        (fun p => owner_ids.contains p.person_id && p.household_id == pl.household_id)
      if matching.length != owner_ids.length then
        (.error (.validationError "All owners must belong to the household"), s)
      else
        let aid := s.next_id
        let arow : Asset :=
          { asset_id := aid, plan_id, asset_category_id, asset_name, value,
            include_in_nest_egg, independent_growth_rate }
        let s1 : Store :=
          { s with assets := s.assets ++ [arow], next_id := s.next_id + 1 }
        match insertOwnerLinks aid owner_ids s1 with
        | (.ok _, s2) => (.ok aid, s2)
        | (.error e, s2) => (.error e, s2)

/-- `create_asset` wrapped in the transaction combinator. -/
def create_asset (s : Store) (plan_id asset_category_id : Int) (asset_name : String)
    (value : Rat) (owner_ids : List Int) (include_in_nest_egg : Bool)
    (independent_growth_rate : Option Rat) : Except DbError Int × Store :=
  transact (create_asset_body s plan_id asset_category_id asset_name value owner_ids
    include_in_nest_egg independent_growth_rate) s

/-- Result row of `AssetsCRUD.get_asset`: the base asset joined with its
category name and aggregated owners. -/
structure AssetDetails where
  asset : Asset
  category_name : String
  owner_ids : List Int
  owner_names : List String
deriving Repr, DecidableEq

/-- `AssetsCRUD.get_asset` (`crud/assets.py` lines 209-239): inner join with
`asset_categories` (a missing category drops the row), left join with owners. -/
def get_asset (s : Store) (asset_id : Int) : Option AssetDetails :=
  match s.findAsset asset_id with
  | none => none
  | some a =>
    match s.findAssetCategory a.asset_category_id with
    | none => none
    | some c =>
      let owners := (s.asset_owners.filter (fun l => l.asset_id == asset_id)).filterMap
        (fun l => s.findPerson l.person_id)
      some { asset := a, category_name := c.category_name,
             owner_ids := owners.map (fun p => p.person_id),
             owner_names := owners.map (fun p => p.first_name ++ " " ++ p.last_name) }

/-- Sparse assumption inputs: the optional dict passed as `base_assumptions`
to `create_plan` and as `assumption_overrides` to `create_scenario` /
`update_scenario`. -/
structure BaseAssumptionsInput where
  nest_egg_growth_rate : Option Rat
  inflation_rate : Option Rat
  annual_retirement_spending : Option Rat
deriving Repr, DecidableEq

/-- Body of `PlansCRUD.create_plan` (`crud/plans.py` lines 19-108): verifies
the reference person belongs to the household, inserts the plan row (the year
defaulting to `current_year`, which models `datetime.now().year`), requires
`inflation_rate` to be present, and inserts the `base_assumptions` row with
defaults 6.0 for `nest_egg_growth_rate` and 0 for
`annual_retirement_spending`.  No range or sign validation is performed on
the assumption values.  Note the missing-inflation check happens after the
plan row insert; the surrounding transaction rolls that insert back. -/
def create_plan_body (s : Store) (household_id : Int) (plan_name : String)
    (reference_person_id : Int) (plan_creation_year : Option Int) (current_year : Int)
    (base_assumptions : Option BaseAssumptionsInput) : Except DbError Int × Store :=
  if (s.people.find? (fun p => p.person_id == reference_person_id &&
      p.household_id == household_id)).isNone then
    (.error (.validationError "Reference person must belong to the household"), s)
  else
    let yr := plan_creation_year.getD current_year
    let pid := s.next_id
    let prow : Plan :=
      { plan_id := pid, household_id, plan_name, reference_person_id,
        plan_creation_year := yr }
    let s1 : Store :=
      { s with plans := s.plans ++ [prow], next_id := s.next_id + 1 }
    let assumptions := base_assumptions.getD ⟨none, none, none⟩
    match assumptions.inflation_rate with
    | none => (.error (.validationError "inflation_rate is required in base assumptions"), s1)
    | some inf =>
      (.ok pid,
       { s1 with base_assumptions := s1.base_assumptions ++
           [{ plan_id := pid,
              nest_egg_growth_rate := assumptions.nest_egg_growth_rate.getD 6,
              inflation_rate := inf,
              annual_retirement_spending := assumptions.annual_retirement_spending.getD 0 }] })

/-- `create_plan` wrapped in the transaction combinator. -/
def create_plan (s : Store) (household_id : Int) (plan_name : String)
    (reference_person_id : Int) (plan_creation_year : Option Int) (current_year : Int)
    (base_assumptions : Option BaseAssumptionsInput) : Except DbError Int × Store :=
  transact (create_plan_body s household_id plan_name reference_person_id
    plan_creation_year current_year base_assumptions) s

/-- `PlansCRUD.get_plan_base_assumptions` (`crud/plans.py` lines 266-284). -/
def get_plan_base_assumptions (s : Store) (plan_id : Int) : Option BaseAssumptionsRow :=
  s.base_assumptions.find? (fun r => r.plan_id == plan_id)

/-! ## Scenario registry (`crud/scenarios.py` lines 113-274) -/

/-- The merge performed by `update_scenario`'s dynamic UPDATE statement on an
existing `scenario_assumptions` row: each supplied field sets its overridden
flag and value, omitted fields are untouched. -/
def mergeScenarioAssumptions (r : ScenarioAssumptions) (ov : BaseAssumptionsInput) :
    ScenarioAssumptions :=
  { r with
    overrides_nest_egg_growth_rate :=
      if ov.nest_egg_growth_rate.isSome then true else r.overrides_nest_egg_growth_rate,
    nest_egg_growth_rate :=
      if ov.nest_egg_growth_rate.isSome then ov.nest_egg_growth_rate
      else r.nest_egg_growth_rate,
    overrides_inflation_rate :=
      if ov.inflation_rate.isSome then true else r.overrides_inflation_rate,
    inflation_rate :=
      if ov.inflation_rate.isSome then ov.inflation_rate else r.inflation_rate,
    overrides_annual_retirement_spending :=
      if ov.annual_retirement_spending.isSome then true
      else r.overrides_annual_retirement_spending,
    annual_retirement_spending :=
      if ov.annual_retirement_spending.isSome then ov.annual_retirement_spending
      else r.annual_retirement_spending }

/-- The `scenario_assumptions` row inserted by `update_scenario` (and
`create_scenario`) when none exists: flags set exactly for supplied fields. -/
def freshScenarioAssumptions (scenario_id : Int) (ov : BaseAssumptionsInput) :
    ScenarioAssumptions :=
  { scenario_id,
    overrides_nest_egg_growth_rate := ov.nest_egg_growth_rate.isSome,
    nest_egg_growth_rate := ov.nest_egg_growth_rate,
    overrides_inflation_rate := ov.inflation_rate.isSome,
    inflation_rate := ov.inflation_rate,
    overrides_annual_retirement_spending := ov.annual_retirement_spending.isSome,
    annual_retirement_spending := ov.annual_retirement_spending }

/-- The assumption-override half of `update_scenario` (`crud/scenarios.py`
lines 189-268): validates the supplied values, then updates the existing
`scenario_assumptions` row or inserts a fresh one.  The insert's foreign key
on `scenario_id` is *Modelled from the spec:* the schema is not in the source
tree; spec §6 requires foreign-key constraints on the ownership chain and
`connection.py` switches `PRAGMA foreign_keys = ON`, so inserting an
assumptions row for a missing scenario fails as a constraint violation. -/
def update_scenario_assumptions_step (s : Store) (scenario_id : Int)
    (assumption_overrides : Option BaseAssumptionsInput) : Except DbError Bool × Store :=
  match assumption_overrides with
  | none => (.ok true, s)
  | some ov =>
    if ov.nest_egg_growth_rate.any (fun g => decide (g < -200) || decide (g > 200)) then
      (.error (.validationError "Growth rate must be between -200 and 200"), s)
    else if ov.inflation_rate.any (fun g => decide (g < -200) || decide (g > 200)) then
      (.error (.validationError "Inflation rate must be between -200 and 200"), s)
    else if ov.annual_retirement_spending.any (fun v => decide (v < 0)) then
      (.error (.validationError "Annual retirement spending cannot be negative"), s)
    else
      match s.findScenarioAssumptions scenario_id with
      | some _ =>
        (.ok true,
         { s with scenario_assumptions :=
             s.scenario_assumptions.map (fun r => if r.scenario_id == scenario_id then mergeScenarioAssumptions r ov else r) })
      | none =>
        if (s.findScenario scenario_id).isNone then
          (.error (.constraintViolation "FOREIGN KEY constraint failed"), s)
        else
          (.ok true,
           { s with scenario_assumptions :=
               s.scenario_assumptions ++ [freshScenarioAssumptions scenario_id ov] })

/-- Body of `update_scenario` (`crud/scenarios.py` lines 152-274).  When a
name is supplied, the UPDATE on `scenarios` runs first and a zero rowcount
returns `False`; otherwise control falls through to the assumptions step.
`assumption_overrides = none` models both Python `None` and the empty dict
(both falsy, skipping the branch); when neither argument does anything the
function returns `True`. -/
def update_scenario_body (s : Store) (scenario_id : Int) (scenario_name : Option String)
    (assumption_overrides : Option BaseAssumptionsInput) : Except DbError Bool × Store :=
  match scenario_name with
  | some nm =>
    if (s.findScenario scenario_id).isNone then (.ok false, s)
    else
      let s1 : Store :=
        { s with scenarios :=
            s.scenarios.map (fun sc => if sc.scenario_id == scenario_id then { sc with scenario_name := nm } else sc) }
      update_scenario_assumptions_step s1 scenario_id assumption_overrides
  | none => update_scenario_assumptions_step s scenario_id assumption_overrides

/-- `update_scenario` wrapped in the transaction combinator. -/
def update_scenario (s : Store) (scenario_id : Int) (scenario_name : Option String)
    (assumption_overrides : Option BaseAssumptionsInput) : Except DbError Bool × Store :=
  transact (update_scenario_body s scenario_id scenario_name assumption_overrides) s

/-- `COUNT(DISTINCT ...)`. -/
def distinctCount (l : List Int) : Nat := l.dedup.length

/-- Result row of `get_scenario`: the scenario joined with its plan,
left-joined assumptions, and the six `COUNT(DISTINCT ...)` override counts. -/
structure ScenarioDetails where
  scenario_id : Int
  plan_id : Int
  scenario_name : String
  plan_name : String
  nest_egg_growth_rate : Option Rat
  inflation_rate : Option Rat
  annual_retirement_spending : Option Rat
  num_growth_adjustments : Nat
  num_person_overrides : Nat
  num_asset_overrides : Nat
  num_liability_overrides : Nat
  num_inflow_outflow_overrides : Nat
  num_retirement_income_overrides : Nat
deriving Repr, DecidableEq

/-- `get_scenario` (`crud/scenarios.py` lines 113-150): inner join with
`plans`, left joins with the assumption row and each override table, counting
distinct override keys per kind.  Returns `none` when the scenario (or its
plan row) is missing. -/
def get_scenario (s : Store) (sid : Int) : Option ScenarioDetails :=
  match s.findScenario sid with
  | none => none
  | some sc =>
    match s.findPlan sc.plan_id with
    | none => none
    | some pl =>
      let sa := s.findScenarioAssumptions sid
      some
        { scenario_id := sid, plan_id := sc.plan_id,
          scenario_name := sc.scenario_name, plan_name := pl.plan_name,
          nest_egg_growth_rate := sa.bind (fun r => r.nest_egg_growth_rate),
          inflation_rate := sa.bind (fun r => r.inflation_rate),
          annual_retirement_spending := sa.bind (fun r => r.annual_retirement_spending),
          num_growth_adjustments :=
            distinctCount ((s.scenario_growth_adjustments.filter (fun r => r.scenario_id == sid)).map (fun r => r.adjustment_id)),
          num_person_overrides :=
            distinctCount ((s.scenario_person_overrides.filter (fun r => r.scenario_id == sid)).map (fun r => r.person_id)),
          num_asset_overrides :=
            distinctCount ((s.scenario_assets.filter (fun r => r.scenario_id == sid)).map (fun r => r.scenario_asset_id)),
          num_liability_overrides :=
            distinctCount ((s.scenario_liabilities.filter (fun r => r.scenario_id == sid)).map (fun r => r.scenario_item_id)),
          num_inflow_outflow_overrides :=
            distinctCount ((s.scenario_inflows_outflows.filter (fun r => r.scenario_id == sid)).map (fun r => r.scenario_item_id)),
          num_retirement_income_overrides :=
            distinctCount ((s.scenario_retirement_income.filter (fun r => r.scenario_id == sid)).map (fun r => r.scenario_item_id)) }

/-! ## Resolution engine (effective-value reads) -/

/-- A row of the `scenario_effective_assets` SQL view.

Modelled from the spec: the view's SQL lives in the database schema file,
which is not part of the source tree; only its reader
(`get_scenario_effective_assets`, `crud/scenarios.py` lines 1060-1093) is.
Per spec §4.4/§6 the view returns, for a scenario, every asset of the
scenario's plan except those whose override row sets
`exclude_from_projection`, with each flagged field resolved independently:
overridden flag set → override value, otherwise → base value (including an
unset base value falling through).  `value` is `Option`-valued exactly as a
SQL `CASE WHEN overrides_value THEN o.value ELSE a.value END` projection is
nullable. -/
structure EffectiveAssetRow where
  scenario_id : Int
  asset_id : Int
  asset_category_id : Int
  asset_name : String
  value : Option Rat
  independent_growth_rate : Option Rat
  include_in_nest_egg : Bool
deriving Repr, DecidableEq

/-- Modelled from the spec: the per-field merge of one base asset with its
optional override row (spec §4.4 steps 1-4).  Fields without an overridden
flag (`include_in_nest_egg` has no `overrides_` column) fall through to the
base value, per the spec's flag-driven rule. -/
def mergeAssetRow (sid : Int) (a : Asset) (ov : Option ScenarioAssetOverride) :
    EffectiveAssetRow :=
  match ov with
  | none =>
    { scenario_id := sid, asset_id := a.asset_id,
      asset_category_id := a.asset_category_id, asset_name := a.asset_name,
      value := some a.value,
      independent_growth_rate := a.independent_growth_rate,
      include_in_nest_egg := a.include_in_nest_egg }
  | some row =>
    { scenario_id := sid, asset_id := a.asset_id,
      asset_category_id := a.asset_category_id, asset_name := a.asset_name,
      value := if row.overrides_value then row.value else some a.value,
      independent_growth_rate :=
        if row.overrides_independent_growth_rate then row.independent_growth_rate
        else a.independent_growth_rate,
      include_in_nest_egg := a.include_in_nest_egg }

/-- Modelled from the spec: the `scenario_effective_assets` view itself — the
scenario's plan's assets, minus those excluded by their override row, merged
field-by-field.  A missing scenario yields no rows (spec §4.4 failure
semantics: "not found", never an exception). -/
def scenario_effective_assets_view (s : Store) (sid : Int) : List EffectiveAssetRow :=
  match s.findScenario sid with
  | none => []
  | some sc =>
    ((s.assets.filter (fun a => a.plan_id == sc.plan_id)).filter
      (fun a => !((s.findAssetOverride sid a.asset_id).any (fun r => r.exclude_from_projection)))).map
      (fun a => mergeAssetRow sid a (s.findAssetOverride sid a.asset_id))

/-- Result row of `get_scenario_effective_assets`: a view row joined with its
category name and aggregated owners. -/
structure EffectiveAssetDetails where
  row : EffectiveAssetRow
  category_name : String
  owner_ids : List Int
  owner_names : List String
deriving Repr, DecidableEq

/-- The `ORDER BY ac.category_name, sea.asset_name` comparison. -/
def effAssetLe (x y : EffectiveAssetDetails) : Bool :=
  decide (x.category_name < y.category_name) ||
  (x.category_name == y.category_name && !(decide (y.row.asset_name < x.row.asset_name)))

/-- Insertion step for the effective-assets ordering. -/
def insertEff (a : EffectiveAssetDetails) :
    List EffectiveAssetDetails → List EffectiveAssetDetails
  | [] => [a]
  | b :: rest => if effAssetLe a b then a :: b :: rest else b :: insertEff a rest

/-- Insertion sort for the effective-assets ordering. -/
def sortEff : List EffectiveAssetDetails → List EffectiveAssetDetails
  | [] => []
  | a :: rest => insertEff a (sortEff rest)

/-- `get_scenario_effective_assets` (`crud/scenarios.py` lines 1060-1093):
reads the `scenario_effective_assets` view, inner-joins each row's category
(a missing category drops the row), aggregates owners, and orders by
category name then asset name. -/
def joinEffectiveAsset (s : Store) (r : EffectiveAssetRow) : Option EffectiveAssetDetails :=
  match s.findAssetCategory r.asset_category_id with
  | none => none
  | some c =>
    let owners := (s.asset_owners.filter (fun l => l.asset_id == r.asset_id)).filterMap
      (fun l => s.findPerson l.person_id)
    some { row := r, category_name := c.category_name,
           owner_ids := owners.map (fun p => p.person_id),
           owner_names := owners.map (fun p => p.first_name ++ " " ++ p.last_name) }

def get_scenario_effective_assets (s : Store) (sid : Int) : List EffectiveAssetDetails :=
  sortEff ((scenario_effective_assets_view s sid).filterMap (joinEffectiveAsset s))

/-! ## A small concrete store used by the concrete instantiations below -/

/-- A concrete populated store: one household (id 1) with one person, one plan
(id 10) with base assumptions, one category (id 20), one asset (id 30,
`value = 100000`, `independent_growth_rate` unset), one liability (id 40),
one cash flow (id 50, years 2020-2030), one retirement income plan (id 60),
and one scenario (id 70) with no overrides.  Fresh rowids start at 100. -/
def testStore : Store :=
  { people := [{ person_id := 1, household_id := 1, first_name := "A", last_name := "B",
                 retirement_age := 65, final_age := 95 }],
    plans := [{ plan_id := 10, household_id := 1, plan_name := "Plan",
                reference_person_id := 1, plan_creation_year := 2024 }],
    base_assumptions := [{ plan_id := 10, nest_egg_growth_rate := 6, inflation_rate := 3,
                           annual_retirement_spending := 0 }],
    asset_categories := [{ asset_category_id := 20, household_id := 1,
                           category_name := "Brokerage" }],
    assets := [{ asset_id := 30, plan_id := 10, asset_category_id := 20,
                 asset_name := "Brokerage", value := 100000,
                 include_in_nest_egg := true, independent_growth_rate := none }],
    asset_owners := [{ asset_id := 30, person_id := 1 }],
    asset_growth_adjustments := [],
    liabilities := [{ liability_id := 40, plan_id := 10, value := 5000,
                      interest_rate := none, include_in_nest_egg := true }],
    inflows_outflows := [{ inflow_outflow_id := 50, plan_id := 10, flow_type := "INFLOW",
                           name := "Salary", annual_amount := 1000, start_year := 2020,
                           end_year := 2030, apply_inflation := false }],
    retirement_income_plans := [{ income_plan_id := 60, plan_id := 10, name := "Pension",
                                  annual_income := 50000, start_age := 65,
                                  end_age := some 95 }],
    scenarios := [{ scenario_id := 70, plan_id := 10, scenario_name := "Recession" }],
    scenario_growth_adjustments := [],
    scenario_assumptions := [],
    scenario_person_overrides := [],
    scenario_assets := [],
    scenario_liabilities := [],
    scenario_inflows_outflows := [],
    scenario_retirement_income := [],
    next_id := 100 }

instance {ε α : Type} [DecidableEq ε] [DecidableEq α] : DecidableEq (Except ε α) := fun x y =>
  match x, y with
  | .ok a, .ok b => if h : a = b then .isTrue (by rw [h]) else .isFalse (by simp [h])
  | .error e, .error f => if h : e = f then .isTrue (by rw [h]) else .isFalse (by simp [h])
  | .ok _, .error _ => .isFalse (by simp)
  | .error _, .ok _ => .isFalse (by simp)

/-! ## Helper lemmas -/

/-- Membership through the effective-assets insertion step. -/
theorem mem_insertEff {a x : EffectiveAssetDetails} {l : List EffectiveAssetDetails} :
    x ∈ insertEff a l ↔ x = a ∨ x ∈ l := by
  induction l with
  | nil => simp [insertEff]
  | cons b t ih =>
    simp only [insertEff]
    split
    · simp [List.mem_cons]
    · simp only [List.mem_cons, ih]
      tauto

/-- The effective-assets ordering is a permutation: membership is preserved. -/
theorem mem_sortEff {x : EffectiveAssetDetails} {l : List EffectiveAssetDetails} :
    x ∈ sortEff l ↔ x ∈ l := by
  induction l with
  | nil => simp [sortEff]
  | cons a t ih => simp [sortEff, mem_insertEff, ih]

/-- The three-disjunct SQL overlap test agrees with the standard closed-interval
overlap test `s1 ≤ e2 ∧ s2 ≤ e1` whenever both intervals are valid. -/
theorem sqlOverlapHit_eq_true_iff (adj : GrowthAdjustment) (ns ne : Int)
    (hadj : adj.start_year ≤ adj.end_year) (h : ns ≤ ne) :
    sqlOverlapHit adj ns ne = true ↔ (adj.start_year ≤ ne ∧ ns ≤ adj.end_year) := by
  simp only [sqlOverlapHit, Bool.or_eq_true, Bool.and_eq_true, decide_eq_true_eq]
  omega

/-! ## C6: growth-adjustment overlap validation -/

/-- C6: for valid inputs (`start_year ≤ end_year`, rate in [-200, 200]) whose
stored sibling adjustments are themselves valid intervals,
`add_growth_adjustment` succeeds exactly when the candidate closed interval
overlaps no stored adjustment of the asset under the test
`s1 ≤ e2 ∧ s2 ≤ e1`; and on an asset with no stored adjustments it succeeds
and `get_growth_adjustments` returns exactly the new record. -/
theorem add_growth_adjustment_spec (s : Store) (asset_id start_year end_year : Int)
    (growth_rate : Rat)
    (hyears : start_year ≤ end_year)
    (hr1 : -200 ≤ growth_rate) (hr2 : growth_rate ≤ 200)
    (hstored : ∀ adj ∈ s.asset_growth_adjustments,
      adj.asset_id = asset_id → adj.start_year ≤ adj.end_year) :
    ((∃ rid, (add_growth_adjustment s asset_id start_year end_year growth_rate).1 = .ok rid) ↔
      ∀ adj ∈ s.asset_growth_adjustments, adj.asset_id = asset_id →
        ¬(adj.start_year ≤ end_year ∧ start_year ≤ adj.end_year)) ∧
    (s.asset_growth_adjustments.filter (fun adj => adj.asset_id == asset_id) = [] →
      (add_growth_adjustment s asset_id start_year end_year growth_rate).1 = .ok s.next_id ∧
      get_growth_adjustments
          (add_growth_adjustment s asset_id start_year end_year growth_rate).2 asset_id none =
        [{ adjustment_id := s.next_id, asset_id, start_year, end_year, growth_rate }]) := by
  have h1 : ¬ (start_year > end_year) := by omega
  have h2 : ¬ (growth_rate < -200 ∨ growth_rate > 200) := by
    rintro (h | h) <;> linarith
  simp only [add_growth_adjustment, add_growth_adjustment_body, if_neg h1, if_neg h2]
  by_cases hA : s.asset_growth_adjustments.any
      (fun adj => adj.asset_id == asset_id && sqlOverlapHit adj start_year end_year) = true
  · rw [if_pos hA]
    constructor
    · constructor
      · rintro ⟨rid, hrid⟩
        simp [transact] at hrid
      · intro hno
        exfalso
        rcases List.any_eq_true.mp hA with ⟨adj, hmem, hp⟩
        simp only [Bool.and_eq_true] at hp
        obtain ⟨hid, hhit⟩ := hp
        have hid' : adj.asset_id = asset_id := by simpa using hid
        have hov := (sqlOverlapHit_eq_true_iff adj start_year end_year
          (hstored adj hmem hid') hyears).mp hhit
        exact hno adj hmem hid' hov
    · intro hf
      exfalso
      rcases List.any_eq_true.mp hA with ⟨adj, hmem, hp⟩
      simp only [Bool.and_eq_true] at hp
      have := List.filter_eq_nil_iff.mp hf adj hmem
      exact this hp.1
  · rw [if_neg hA]
    have hok : ∀ adj ∈ s.asset_growth_adjustments, adj.asset_id = asset_id →
        ¬(adj.start_year ≤ end_year ∧ start_year ≤ adj.end_year) := by
      intro adj hmem hid hov
      have hA' : s.asset_growth_adjustments.any
          (fun adj => adj.asset_id == asset_id && sqlOverlapHit adj start_year end_year) = false := by
        simpa using hA
      have := List.any_eq_false.mp hA' adj hmem
      apply this
      simp only [Bool.and_eq_true]
      refine ⟨by simpa using hid, ?_⟩
      exact (sqlOverlapHit_eq_true_iff adj start_year end_year
        (hstored adj hmem hid) hyears).mpr hov
    refine ⟨⟨fun _ => hok, fun _ => ⟨s.next_id, rfl⟩⟩, ?_⟩
    intro hf
    refine ⟨rfl, ?_⟩
    simp only [transact, get_growth_adjustments]
    rw [List.filter_append, hf]
    simp [sortByStart, insertByStart]

/-- Witness for C6 at a concrete input: on the test store's asset 30 (no
stored adjustments), adding `[2025, 2030]` at rate 5 succeeds and the read
returns exactly that record. -/
theorem add_growth_adjustment_spec_witness :
    (add_growth_adjustment testStore 30 2025 2030 5).1 = .ok 100 ∧
    get_growth_adjustments (add_growth_adjustment testStore 30 2025 2030 5).2 30 none =
      [{ adjustment_id := 100, asset_id := 30, start_year := 2025, end_year := 2030,
         growth_rate := 5 }] :=
  (add_growth_adjustment_spec testStore 30 2025 2030 5 (by decide) (by decide) (by decide)
    (by decide)).2 (by decide)

/-! ## C10 / C8: create_plan assumption handling -/

/-- What `create_plan` stores for any successful call: the plan id is the next
rowid and the `base_assumptions` row holds the supplied values with defaults
`6.0` / `0` for the omitted growth/spending fields.  No range or sign check
is applied to any of the three values. -/
theorem create_plan_stores_lemma (s : Store) (household_id : Int) (plan_name : String)
    (reference_person_id : Int) (plan_creation_year : Option Int) (current_year : Int)
    (growth spending : Option Rat) (inflation : Rat)
    (href : (s.people.find? (fun p => p.person_id == reference_person_id &&
      p.household_id == household_id)).isSome = true)
    (hfresh : get_plan_base_assumptions s s.next_id = none) :
    (create_plan s household_id plan_name reference_person_id plan_creation_year current_year
      (some ⟨growth, some inflation, spending⟩)).1 = .ok s.next_id ∧
    get_plan_base_assumptions
        (create_plan s household_id plan_name reference_person_id plan_creation_year
          current_year (some ⟨growth, some inflation, spending⟩)).2 s.next_id =
      some { plan_id := s.next_id, nest_egg_growth_rate := growth.getD 6,
             inflation_rate := inflation, annual_retirement_spending := spending.getD 0 } := by
  rcases hfind : s.people.find? (fun p => p.person_id == reference_person_id &&
      p.household_id == household_id) with _ | p
  · rw [hfind] at href
    simp at href
  · simp only [create_plan, create_plan_body, transact, hfind, Option.isNone_some,
      Bool.false_eq_true, if_false, Option.getD_some]
    refine ⟨by trivial, ?_⟩
    simp only [get_plan_base_assumptions] at hfresh ⊢
    rw [List.find?_append, hfresh]
    simp [List.find?]

/-- C10: a `create_plan` call whose assumptions contain `inflation_rate` but
omit `nest_egg_growth_rate` and/or `annual_retirement_spending` succeeds
(given a valid reference person) and stores the unstated defaults: 6.0 for
the growth rate and 0 for the retirement spending. -/
theorem create_plan_defaults (s : Store) (household_id : Int) (plan_name : String)
    (reference_person_id : Int) (plan_creation_year : Option Int) (current_year : Int)
    (growth spending : Option Rat) (inflation : Rat)
    (href : (s.people.find? (fun p => p.person_id == reference_person_id &&
      p.household_id == household_id)).isSome = true)
    (hfresh : get_plan_base_assumptions s s.next_id = none) :
    (create_plan s household_id plan_name reference_person_id plan_creation_year current_year
      (some ⟨growth, some inflation, spending⟩)).1 = .ok s.next_id ∧
    get_plan_base_assumptions
        (create_plan s household_id plan_name reference_person_id plan_creation_year
          current_year (some ⟨growth, some inflation, spending⟩)).2 s.next_id =
      some { plan_id := s.next_id, nest_egg_growth_rate := growth.getD 6,
             inflation_rate := inflation, annual_retirement_spending := spending.getD 0 } :=
  create_plan_stores_lemma s household_id plan_name reference_person_id plan_creation_year
    current_year growth spending inflation href hfresh

/-- Witness for C10: on the test store, supplying only `inflation_rate = 3`
creates plan 100 whose assumptions row stores the defaults 6 and 0. -/
theorem create_plan_defaults_witness :
    (create_plan testStore 1 "P3" 1 (some 2024) 2025 (some ⟨none, some 3, none⟩)).1 =
      .ok 100 ∧
    get_plan_base_assumptions
        (create_plan testStore 1 "P3" 1 (some 2024) 2025 (some ⟨none, some 3, none⟩)).2 100 =
      some { plan_id := 100, nest_egg_growth_rate := 6, inflation_rate := 3,
             annual_retirement_spending := 0 } :=
  create_plan_defaults testStore 1 "P3" 1 (some 2024) 2025 none none 3 (by decide) (by decide)

/-- Counterexample to C8: `create_plan` accepts and stores base assumptions
far outside the documented ranges — inflation and growth rate 500 and
negative spending are stored verbatim, no `ValidationError` is raised. -/
theorem create_plan_out_of_range_stored :
    (create_plan testStore 1 "P2" 1 (some 2024) 2025
      (some ⟨some 500, some 500, some (-5)⟩)).1 = .ok 100 ∧
    get_plan_base_assumptions
        (create_plan testStore 1 "P2" 1 (some 2024) 2025
          (some ⟨some 500, some 500, some (-5)⟩)).2 100 =
      some { plan_id := 100, nest_egg_growth_rate := 500, inflation_rate := 500,
             annual_retirement_spending := -5 } ∧
    ¬((500:Rat) ≤ 200) ∧ ¬((0:Rat) ≤ -5) :=
  ⟨rfl, rfl, by decide, by decide⟩

/-- C8 amended: `create_plan` validates only the presence of
`inflation_rate` and the reference person's household; the three
base-assumption values themselves are stored verbatim whatever they are —
no range check, no rejection, no silent correction.  (Range validation of
these three fields exists only on the scenario-override write path.) -/
theorem create_plan_no_range_validation (s : Store) (household_id : Int) (plan_name : String)
    (reference_person_id : Int) (plan_creation_year : Option Int) (current_year : Int)
    (g inflation sp : Rat)
    (href : (s.people.find? (fun p => p.person_id == reference_person_id &&
      p.household_id == household_id)).isSome = true)
    (hfresh : get_plan_base_assumptions s s.next_id = none) :
    (create_plan s household_id plan_name reference_person_id plan_creation_year current_year
      (some ⟨some g, some inflation, some sp⟩)).1 = .ok s.next_id ∧
    get_plan_base_assumptions
        (create_plan s household_id plan_name reference_person_id plan_creation_year
          current_year (some ⟨some g, some inflation, some sp⟩)).2 s.next_id =
      some { plan_id := s.next_id, nest_egg_growth_rate := g, inflation_rate := inflation,
             annual_retirement_spending := sp } :=
  create_plan_stores_lemma s household_id plan_name reference_person_id plan_creation_year
    current_year (some g) (some sp) inflation href hfresh

/-- Witness for the amended C8: rate 999 and spending -1 are accepted and
stored unchanged. -/
theorem create_plan_no_range_validation_witness :
    (create_plan testStore 1 "P4" 1 (some 2024) 2025
      (some ⟨some 999, some 999, some (-1)⟩)).1 = .ok 100 ∧
    get_plan_base_assumptions
        (create_plan testStore 1 "P4" 1 (some 2024) 2025
          (some ⟨some 999, some 999, some (-1)⟩)).2 100 =
      some { plan_id := 100, nest_egg_growth_rate := 999, inflation_rate := 999,
             annual_retirement_spending := -1 } :=
  create_plan_no_range_validation testStore 1 "P4" 1 (some 2024) 2025 999 999 (-1)
    (by decide) (by decide)

/-! ## C9: update_scenario on a missing scenario -/

/-- Counterexample to C9: `update_scenario` on a missing scenario id with
neither a name nor assumption overrides supplied returns `True`, not the
negative result `False` the claim requires for every argument combination. -/
theorem update_scenario_missing_returns_true :
    Store.findScenario testStore 999 = none ∧
    update_scenario testStore 999 none none = (.ok true, testStore) ∧
    (update_scenario testStore 999 none none).1 ≠ .ok false :=
  ⟨rfl, rfl, by decide⟩

/-- C9 amended: for a missing scenario id, `update_scenario` returns `False`
(leaving the store unchanged) exactly when a name is supplied — the name
UPDATE's zero rowcount is the only missing-id detection.  With no arguments
at all it returns `True` (no-op), and with only assumption overrides it never
returns `False`: it either fails validation or hits the modelled foreign-key
constraint on inserting the assumptions row, rolling back to the unchanged
store in every case. -/
theorem update_scenario_missing_spec (s : Store) (sid : Int) (nm : String)
    (ov : BaseAssumptionsInput)
    (hmiss : s.findScenario sid = none)
    (hass : s.findScenarioAssumptions sid = none) :
    (∀ ov' : Option BaseAssumptionsInput, update_scenario s sid (some nm) ov' = (.ok false, s)) ∧
    update_scenario s sid none none = (.ok true, s) ∧
    (∃ e, (update_scenario s sid none (some ov)).1 = .error e) ∧
    (update_scenario s sid none (some ov)).2 = s := by
  refine ⟨?_, ?_, ?_⟩
  · intro ov'
    simp [update_scenario, update_scenario_body, transact, hmiss]
  · simp [update_scenario, update_scenario_body, update_scenario_assumptions_step, transact]
  · have hstep : ∃ e, update_scenario_assumptions_step s sid (some ov) =
        (.error e, s) := by
      simp only [update_scenario_assumptions_step, hass, hmiss]
      split_ifs with h1 h2 h3 h4
      · exact ⟨_, rfl⟩
      · exact ⟨_, rfl⟩
      · exact ⟨_, rfl⟩
      · exact ⟨_, rfl⟩
      · simp at h4
    obtain ⟨e, he⟩ := hstep
    simp only [update_scenario, update_scenario_body, transact, he]
    exact ⟨⟨e, rfl⟩, by trivial⟩

/-- Witness for the amended C9 at a concrete missing id (999 is absent from
the test store). -/
theorem update_scenario_missing_spec_witness :
    update_scenario testStore 999 (some "X") none = (.ok false, testStore) ∧
    update_scenario testStore 999 none none = (.ok true, testStore) ∧
    (∃ e, (update_scenario testStore 999 none
      (some ⟨some 1, none, none⟩)).1 = .error e) ∧
    (update_scenario testStore 999 none (some ⟨some 1, none, none⟩)).2 = testStore := by
  have h := update_scenario_missing_spec testStore 999 "X" ⟨some 1, none, none⟩ rfl rfl
  exact ⟨h.1 none, h.2.1, h.2.2.1, h.2.2.2⟩

/-! ## C7: atomicity of mutating operations -/

/-- C7: every embedded mutating operation is atomic on failure — whenever a
call returns an error, the observable store equals the store before the call,
because each operation runs inside `transact`, the embedding of
`DatabaseConnection.transaction`'s BEGIN/COMMIT/ROLLBACK wrapper.  In
particular a `create_asset` whose owner-link step fails does not keep the
already-inserted asset row, and an `update_scenario` whose validation fails
after the name UPDATE does not keep the new name. -/
theorem mutations_atomic_on_failure :
    (∀ s plan_id cat nm v owners inc igr e,
      (create_asset s plan_id cat nm v owners inc igr).1 = .error e →
      (create_asset s plan_id cat nm v owners inc igr).2 = s) ∧
    (∀ s sid nm ov e, (update_scenario s sid nm ov).1 = .error e →
      (update_scenario s sid nm ov).2 = s) ∧
    (∀ s hh nm rp yr cy ba e, (create_plan s hh nm rp yr cy ba).1 = .error e →
      (create_plan s hh nm rp yr cy ba).2 = s) ∧
    (∀ s sid aid v g n ex e, (override_asset s sid aid v g n ex).1 = .error e →
      (override_asset s sid aid v g n ex).2 = s) ∧
    (∀ s sid lid v ir n ex e, (override_liability s sid lid v ir n ex).1 = .error e →
      (override_liability s sid lid v ir n ex).2 = s) ∧
    (∀ s sid ioid am sy ey ai ex e,
      (override_inflow_outflow s sid ioid am sy ey ai ex).1 = .error e →
      (override_inflow_outflow s sid ioid am sy ey ai ex).2 = s) ∧
    (∀ s sid rid am sa ea ai n ex e,
      (override_retirement_income s sid rid am sa ea ai n ex).1 = .error e →
      (override_retirement_income s sid rid am sa ea ai n ex).2 = s) ∧
    (∀ s sid pid ra fa e, (update_person_overrides s sid pid ra fa).1 = .error e →
      (update_person_overrides s sid pid ra fa).2 = s) ∧
    (∀ s aid sy ey r e, (add_growth_adjustment s aid sy ey r).1 = .error e →
      (add_growth_adjustment s aid sy ey r).2 = s) :=
  ⟨fun s _ _ _ _ _ _ _ e h => transact_error_store _ s e h,
   fun s _ _ _ e h => transact_error_store _ s e h,
   fun s _ _ _ _ _ _ e h => transact_error_store _ s e h,
   fun s _ _ _ _ _ _ e h => transact_error_store _ s e h,
   fun s _ _ _ _ _ _ e h => transact_error_store _ s e h,
   fun s _ _ _ _ _ _ _ e h => transact_error_store _ s e h,
   fun s _ _ _ _ _ _ _ _ e h => transact_error_store _ s e h,
   fun s _ _ _ _ e h => transact_error_store _ s e h,
   fun s _ _ _ _ e h => transact_error_store _ s e h⟩

/-- Witness for C7: a concrete `update_scenario` call that renames scenario 70
and then fails range validation.  The un-wrapped body really performs the
intermediate name write (its store differs from the input), and the wrapped
operation rolls it back to exactly `testStore`. -/
theorem mutations_atomic_on_failure_witness :
    (update_scenario testStore 70 (some "X") (some ⟨some 500, none, none⟩)).1 =
      .error (.validationError "Growth rate must be between -200 and 200") ∧
    (update_scenario_body testStore 70 (some "X") (some ⟨some 500, none, none⟩)).2 ≠
      testStore ∧
    (update_scenario testStore 70 (some "X") (some ⟨some 500, none, none⟩)).2 = testStore :=
  ⟨rfl, by decide,
   mutations_atomic_on_failure.2.1 testStore 70 (some "X") (some ⟨some 500, none, none⟩)
     (.validationError "Growth rate must be between -200 and 200") rfl⟩

/-! ## C3: window-boundary validation at override-write time -/

/-- Counterexample to C3: after a first call stores an end-year override of
2050 for cash flow 50 (base window 2020-2030), a second call supplying only
`start_year = 2040` fails with the ordering `ValidationError` even though the
boundaries resolution would use after the call (start 2040 overridden, end
2050 already overridden) are not inverted — the check compares the supplied
start against the *base* end 2030, not the stored overridden end. -/
theorem override_window_check_ignores_stored_override :
    (override_inflow_outflow testStore 70 50 none none (some 2050) none false).1 = .ok 100 ∧
    Store.findInflowOutflowOverride
        (override_inflow_outflow testStore 70 50 none none (some 2050) none false).2 70 50 =
      some { scenario_item_id := 100, scenario_id := 70, original_inflow_outflow_id := 50,
             overrides_annual_amount := false, annual_amount := none,
             overrides_start_year := false, start_year := none,
             overrides_end_year := true, end_year := some 2050,
             apply_inflation := false, exclude_from_projection := false } ∧
    ((2040:Int) ≤ 2050) ∧
    (override_inflow_outflow
        (override_inflow_outflow testStore 70 50 none none (some 2050) none false).2
        70 50 none (some 2040) none none false).1 =
      .error (.validationError "Start year must be before or equal to end year") :=
  ⟨rfl, rfl, by decide, rfl⟩

/-- The boundary check actually performed by `override_inflow_outflow`:
supplied-else-*base* start against supplied-else-*base* end. -/
theorem override_inflow_outflow_year_check (s : Store) (sid ioid : Int) (am : Option Rat)
    (sy ey : Option Int) (ai : Option Bool) (ex : Bool) (io : InflowOutflow) (sc : Scenario)
    (hio : s.findInflowOutflow ioid = some io) (hsc : s.findScenario sid = some sc)
    (hplan : io.plan_id = sc.plan_id) :
    (sy.getD io.start_year > ey.getD io.end_year →
      override_inflow_outflow s sid ioid am sy ey ai ex =
        (.error (.validationError "Start year must be before or equal to end year"), s)) ∧
    (sy.getD io.start_year ≤ ey.getD io.end_year →
      ∃ rid, (override_inflow_outflow s sid ioid am sy ey ai ex).1 = .ok rid) := by
  simp only [override_inflow_outflow, override_inflow_outflow_body, hio, hsc, hplan,
    transact, bne_self_eq_false, Bool.false_eq_true, if_false]
  constructor
  · intro h
    rw [if_pos h]
  · intro h
    rw [if_neg (by omega)]
    cases hf : s.findInflowOutflowOverride sid ioid with
    | some row =>
      refine ⟨row.scenario_item_id, ?_⟩
      simp [hf]
    | none =>
      refine ⟨s.next_id, ?_⟩
      simp [hf]

/-- The age check actually performed by `override_retirement_income`:
supplied-else-*base* start age against supplied-else-*base* end age, skipped
when the merged end age is absent. -/
theorem override_retirement_income_age_check (s : Store) (sid rid : Int) (am : Option Rat)
    (sa ea : Option Int) (ai n : Option Bool) (ex : Bool)
    (rip : RetirementIncomePlan) (sc : Scenario)
    (hrip : s.findRetirementIncomePlan rid = some rip) (hsc : s.findScenario sid = some sc)
    (hplan : rip.plan_id = sc.plan_id) :
    (∀ e, ea.or rip.end_age = some e → sa.getD rip.start_age > e →
      override_retirement_income s sid rid am sa ea ai n ex =
        (.error (.validationError "Start age must be before or equal to end age"), s)) ∧
    (∀ e, ea.or rip.end_age = some e → sa.getD rip.start_age ≤ e →
      ∃ r2, (override_retirement_income s sid rid am sa ea ai n ex).1 = .ok r2) ∧
    (ea.or rip.end_age = none →
      ∃ r2, (override_retirement_income s sid rid am sa ea ai n ex).1 = .ok r2) := by
  have heff : (match sa, ea with
      | _, some e => some e
      | _, none => rip.end_age) = ea.or rip.end_age := by
    cases ea <;> simp [Option.or]
  simp only [override_retirement_income, override_retirement_income_body, hrip, hsc, hplan,
    transact, bne_self_eq_false, Bool.false_eq_true, if_false, heff]
  refine ⟨?_, ?_, ?_⟩
  · intro e he h
    rw [he]
    rw [if_pos (by simp [Option.any, decide_eq_true_eq, h])]
  · intro e he h
    rw [he]
    rw [if_neg (by simp [Option.any, decide_eq_true_eq]; omega)]
    cases hf : s.findRetirementIncomeOverride sid rid with
    | some row =>
      refine ⟨row.scenario_item_id, ?_⟩
      simp [hf]
    | none =>
      refine ⟨s.next_id, ?_⟩
      simp [hf]
  · intro he
    rw [he]
    rw [if_neg (by simp [Option.any])]
    cases hf : s.findRetirementIncomeOverride sid rid with
    | some row =>
      refine ⟨row.scenario_item_id, ?_⟩
      simp [hf]
    | none =>
      refine ⟨s.next_id, ?_⟩
      simp [hf]

/-- C3 amended: the write-time ordering check for window overrides merges each
supplied boundary with the corresponding *base* boundary only — a boundary
already overridden in the stored override row is not consulted.  The call
fails with the ordering `ValidationError` exactly when this supplied-else-base
pair is inverted (for retirement income, only when the merged end age is
present). -/
theorem override_window_validation_uses_base :
    (∀ (s : Store) (sid ioid : Int) (am : Option Rat) (sy ey : Option Int)
        (ai : Option Bool) (ex : Bool) (io : InflowOutflow) (sc : Scenario),
      s.findInflowOutflow ioid = some io → s.findScenario sid = some sc →
      io.plan_id = sc.plan_id →
      (sy.getD io.start_year > ey.getD io.end_year →
        override_inflow_outflow s sid ioid am sy ey ai ex =
          (.error (.validationError "Start year must be before or equal to end year"), s)) ∧
      (sy.getD io.start_year ≤ ey.getD io.end_year →
        ∃ rid, (override_inflow_outflow s sid ioid am sy ey ai ex).1 = .ok rid)) ∧
    (∀ (s : Store) (sid rid : Int) (am : Option Rat) (sa ea : Option Int)
        (ai n : Option Bool) (ex : Bool) (rip : RetirementIncomePlan) (sc : Scenario),
      s.findRetirementIncomePlan rid = some rip → s.findScenario sid = some sc →
      rip.plan_id = sc.plan_id →
      (∀ e, ea.or rip.end_age = some e → sa.getD rip.start_age > e →
        override_retirement_income s sid rid am sa ea ai n ex =
          (.error (.validationError "Start age must be before or equal to end age"), s)) ∧
      (∀ e, ea.or rip.end_age = some e → sa.getD rip.start_age ≤ e →
        ∃ r2, (override_retirement_income s sid rid am sa ea ai n ex).1 = .ok r2) ∧
      (ea.or rip.end_age = none →
        ∃ r2, (override_retirement_income s sid rid am sa ea ai n ex).1 = .ok r2)) :=
  ⟨fun s sid ioid am sy ey ai ex io sc hio hsc hplan =>
    override_inflow_outflow_year_check s sid ioid am sy ey ai ex io sc hio hsc hplan,
   fun s sid rid am sa ea ai n ex rip sc hrip hsc hplan =>
    override_retirement_income_age_check s sid rid am sa ea ai n ex rip sc hrip hsc hplan⟩

/-- Witness for the amended C3: concrete calls on the test store.  Cash flow
50 has base window 2020-2030: supplying only `start_year = 2040` fails the
check against the base end, supplying only `start_year = 2025` succeeds.
Income plan 60 has base ages 65-95: start 96 fails against the base end 95,
start 70 succeeds. -/
theorem override_window_validation_uses_base_witness :
    override_inflow_outflow testStore 70 50 none (some 2040) none none false =
      (.error (.validationError "Start year must be before or equal to end year"),
       testStore) ∧
    (∃ rid, (override_inflow_outflow testStore 70 50 none (some 2025) none none false).1 =
      .ok rid) ∧
    override_retirement_income testStore 70 60 none (some 96) none none none false =
      (.error (.validationError "Start age must be before or equal to end age"),
       testStore) ∧
    (∃ r2, (override_retirement_income testStore 70 60 none (some 70) none none none
      false).1 = .ok r2) := by
  have h := override_window_validation_uses_base
  have hio := h.1 testStore 70 50 none (some 2040) none none false
    { inflow_outflow_id := 50, plan_id := 10, flow_type := "INFLOW", name := "Salary",
      annual_amount := 1000, start_year := 2020, end_year := 2030, apply_inflation := false }
    { scenario_id := 70, plan_id := 10, scenario_name := "Recession" } rfl rfl rfl
  have hio2 := h.1 testStore 70 50 none (some 2025) none none false
    { inflow_outflow_id := 50, plan_id := 10, flow_type := "INFLOW", name := "Salary",
      annual_amount := 1000, start_year := 2020, end_year := 2030, apply_inflation := false }
    { scenario_id := 70, plan_id := 10, scenario_name := "Recession" } rfl rfl rfl
  have hri := h.2 testStore 70 60 none (some 96) none none none false
    { income_plan_id := 60, plan_id := 10, name := "Pension", annual_income := 50000,
      start_age := 65, end_age := some 95 }
    { scenario_id := 70, plan_id := 10, scenario_name := "Recession" } rfl rfl rfl
  have hri2 := h.2 testStore 70 60 none (some 70) none none none false
    { income_plan_id := 60, plan_id := 10, name := "Pension", annual_income := 50000,
      start_age := 65, end_age := some 95 }
    { scenario_id := 70, plan_id := 10, scenario_name := "Recession" } rfl rfl rfl
  exact ⟨hio.1 (by decide), hio2.2 (by decide), hri.1 95 rfl (by decide),
    hri2.2.1 95 rfl (by decide)⟩

/-! ## List lemmas about keyed in-place updates (SQL UPDATE ... WHERE key = ?) -/

/-- Updating every predicate-matching row to `r'` keeps `find?` pointing at
`r'` when a match existed. -/
theorem find?_map_update_all {α : Type} (l : List α) (p : α → Bool) (r' : α)
    (hp : p r' = true) (hfind : (l.find? p).isSome = true) :
    (l.map (fun x => if p x then r' else x)).find? p = some r' := by
  induction l with
  | nil => simp at hfind
  | cons a t ih =>
    by_cases hpa : p a = true
    · simp only [List.map_cons, if_pos hpa]
      exact List.find?_cons_of_pos _ hp
    · rw [List.find?_cons_of_neg _ hpa] at hfind
      simp only [List.map_cons, if_neg hpa]
      rw [List.find?_cons_of_neg _ hpa]
      exact ih hfind

/-- Replacing exactly the row `r` by `r'` moves `find?` from `r` to `r'`. -/
theorem find?_map_update_pointwise {α : Type} [DecidableEq α]
    (l : List α) (p : α → Bool) (r r' : α)
    (hfind : l.find? p = some r) (hp : p r' = true) :
    (l.map (fun x => if x = r then r' else x)).find? p = some r' := by
  induction l with
  | nil => simp at hfind
  | cons a t ih =>
    by_cases hpa : p a = true
    · rw [List.find?_cons_of_pos _ hpa] at hfind
      injection hfind with h
      subst h
      simp only [List.map_cons, if_pos rfl]
      exact List.find?_cons_of_pos _ hp
    · rw [List.find?_cons_of_neg _ hpa] at hfind
      have hpr : p r = true := List.find?_some hfind
      have hane : a ≠ r := fun h => hpa (h ▸ hpr)
      simp only [List.map_cons, if_neg hane]
      rw [List.find?_cons_of_neg _ hpa]
      exact ih hfind

/-- Replacing exactly `r` by a row with the same predicate status keeps the
number of matching rows unchanged. -/
theorem length_filter_map_update_pointwise {α : Type} [DecidableEq α]
    (l : List α) (p : α → Bool) (r r' : α) (hpp : p r' = p r) :
    ((l.map (fun x => if x = r then r' else x)).filter p).length =
      (l.filter p).length := by
  induction l with
  | nil => simp
  | cons a t ih =>
    by_cases har : a = r
    · subst har
      simp only [List.map_cons, if_pos rfl, List.filter_cons]
      cases hpa : p a <;> simp [List.filter_cons, hpp, hpa, ih]
    · simp only [List.map_cons, if_neg har, List.filter_cons]
      cases hpa : p a <;> simp [List.filter_cons, hpa, ih]

/-- When the row ids are pairwise distinct, the id-keyed SQL UPDATE is the
pointwise replacement of the single found row. -/
theorem map_keyed_beq_eq_map_pointwise {α : Type} [DecidableEq α]
    (l : List α) (key : α → Int) (r r' : α) (hrmem : r ∈ l)
    (hN : (l.map key).Nodup) :
    l.map (fun x => if key x == key r then r' else x) =
      l.map (fun x => if x = r then r' else x) := by
  apply List.map_congr_left
  intro x hx
  by_cases hxr : x = r
  · simp [hxr]
  · have hkey : ¬ (key x = key r) := by
      intro hk
      exact hxr (List.inj_on_of_nodup_map hN hx hrmem hk)
    rw [if_neg (by simpa using hkey), if_neg hxr]

/-! ## The in-place row rewrites performed by the upsert UPDATE statements -/

/-- The `scenario_assets` row state written by `override_asset`'s UPDATE. -/
def assetRowAfterUpdate (row : ScenarioAssetOverride) (v g : Option Rat)
    (n : Option Bool) (ex : Bool) : ScenarioAssetOverride :=
  { row with
    overrides_value := if v.isSome then true else row.overrides_value,
    value := if v.isSome then v else row.value,
    overrides_independent_growth_rate :=
      if g.isSome then true else row.overrides_independent_growth_rate,
    independent_growth_rate := if g.isSome then g else row.independent_growth_rate,
    include_in_nest_egg := n.getD row.include_in_nest_egg,
    exclude_from_projection := ex }

/-- The `scenario_liabilities` row state written by `override_liability`'s UPDATE. -/
def liabilityRowAfterUpdate (row : ScenarioLiabilityOverride) (v ir : Option Rat)
    (n : Option Bool) (ex : Bool) : ScenarioLiabilityOverride :=
  { row with
    overrides_value := if v.isSome then true else row.overrides_value,
    value := if v.isSome then v else row.value,
    overrides_interest_rate := if ir.isSome then true else row.overrides_interest_rate,
    interest_rate := if ir.isSome then ir else row.interest_rate,
    include_in_nest_egg := n.getD row.include_in_nest_egg,
    exclude_from_projection := ex }

/-- The `scenario_inflows_outflows` row state written by
`override_inflow_outflow`'s UPDATE. -/
def inflowOutflowRowAfterUpdate (row : ScenarioInflowOutflowOverride) (am : Option Rat)
    (sy ey : Option Int) (ai : Option Bool) (ex : Bool) : ScenarioInflowOutflowOverride :=
  { row with
    overrides_annual_amount := if am.isSome then true else row.overrides_annual_amount,
    annual_amount := if am.isSome then am else row.annual_amount,
    overrides_start_year := if sy.isSome then true else row.overrides_start_year,
    start_year := if sy.isSome then sy else row.start_year,
    overrides_end_year := if ey.isSome then true else row.overrides_end_year,
    end_year := if ey.isSome then ey else row.end_year,
    apply_inflation := ai.getD row.apply_inflation,
    exclude_from_projection := ex }

/-- The `scenario_retirement_income` row state written by
`override_retirement_income`'s UPDATE. -/
def retirementIncomeRowAfterUpdate (row : ScenarioRetirementIncomeOverride)
    (am : Option Rat) (sa ea : Option Int) (ai n : Option Bool) (ex : Bool) :
    ScenarioRetirementIncomeOverride :=
  { row with
    overrides_annual_income := if am.isSome then true else row.overrides_annual_income,
    annual_income := if am.isSome then am else row.annual_income,
    overrides_start_age := if sa.isSome then true else row.overrides_start_age,
    start_age := if sa.isSome then sa else row.start_age,
    overrides_end_age := if ea.isSome then true else row.overrides_end_age,
    end_age := if ea.isSome then ea else row.end_age,
    apply_inflation := ai.getD row.apply_inflation,
    include_in_nest_egg := n.getD row.include_in_nest_egg,
    exclude_from_projection := ex }

/-- The `scenario_person_overrides` row state written by
`update_person_overrides`' UPDATE: the two age fields merge, and no other
column — in particular not `exclude_from_projection` — is touched. -/
def personRowAfterUpdate (row : ScenarioPersonOverride) (ra fa : Option Int) :
    ScenarioPersonOverride :=
  { row with
    overrides_retirement_age := if ra.isSome then true else row.overrides_retirement_age,
    retirement_age := if ra.isSome then ra else row.retirement_age,
    overrides_final_age := if fa.isSome then true else row.overrides_final_age,
    final_age := if fa.isSome then fa else row.final_age }

/-- The fresh `scenario_assets` row inserted by `override_asset`. -/
def freshAssetOverrideRow (rid sid aid : Int) (v g : Option Rat) (n : Option Bool)
    (ex : Bool) : ScenarioAssetOverride :=
  { scenario_asset_id := rid, scenario_id := sid, original_asset_id := aid,
    overrides_value := v.isSome, value := v,
    overrides_independent_growth_rate := g.isSome, independent_growth_rate := g,
    include_in_nest_egg := n.getD true, exclude_from_projection := ex }

/-- The fresh `scenario_person_overrides` row inserted by
`update_person_overrides`: flags set exactly for supplied fields,
`exclude_from_projection` left at its (spec-modelled) default `false`. -/
def freshPersonOverrideRow (sid pid : Int) (ra fa : Option Int) : ScenarioPersonOverride :=
  { scenario_id := sid, person_id := pid,
    overrides_retirement_age := ra.isSome, retirement_age := ra,
    overrides_final_age := fa.isSome, final_age := fa,
    exclude_from_projection := false }

/-! ## One-call equations for the upsert operations -/

/-- `override_asset`, create path: with valid inputs, a matching scenario and
asset and no existing override row, the call appends exactly one fresh row
(flags set for supplied fields, `include_in_nest_egg` defaulting to true,
`exclude_from_projection` written from the argument) and returns its rowid. -/
theorem override_asset_create_eq (s : Store) (sid aid : Int) (v g : Option Rat)
    (n : Option Bool) (ex : Bool) (a : Asset) (sc : Scenario)
    (hv : v.any (fun x => decide (x < 0)) = false)
    (hg : g.any (fun x => decide (x < -200) || decide (x > 200)) = false)
    (ha : s.findAsset aid = some a) (hsc : s.findScenario sid = some sc)
    (hplan : a.plan_id = sc.plan_id)
    (hnone : s.findAssetOverride sid aid = none) :
    override_asset s sid aid v g n ex =
      (.ok s.next_id,
       { s with scenario_assets := s.scenario_assets ++ [freshAssetOverrideRow s.next_id sid aid v g n ex], next_id := s.next_id + 1 }) := by
  simp only [override_asset, override_asset_body, transact, ha, hsc, hplan, hv, hg, hnone,
    bne_self_eq_false, Bool.false_eq_true, if_false, freshAssetOverrideRow]

/-- `override_asset`, update path: with valid inputs and an existing override
row, the call rewrites that row in place — supplied fields set their flag and
value, omitted fields keep their stored state, `exclude_from_projection` is
always rewritten — and returns the existing rowid. -/
theorem override_asset_update_eq (s : Store) (sid aid : Int) (v g : Option Rat)
    (n : Option Bool) (ex : Bool) (a : Asset) (sc : Scenario)
    (row : ScenarioAssetOverride)
    (hv : v.any (fun x => decide (x < 0)) = false)
    (hg : g.any (fun x => decide (x < -200) || decide (x > 200)) = false)
    (ha : s.findAsset aid = some a) (hsc : s.findScenario sid = some sc)
    (hplan : a.plan_id = sc.plan_id)
    (hrow : s.findAssetOverride sid aid = some row) :
    override_asset s sid aid v g n ex =
      (.ok row.scenario_asset_id,
       { s with scenario_assets := s.scenario_assets.map (fun r => if r.scenario_asset_id == row.scenario_asset_id then assetRowAfterUpdate row v g n ex else r) }) := by
  simp only [override_asset, override_asset_body, transact, ha, hsc, hplan, hv, hg, hrow,
    bne_self_eq_false, Bool.false_eq_true, if_false, assetRowAfterUpdate]

/-- The fresh `scenario_liabilities` row inserted by `override_liability`. -/
def freshLiabilityOverrideRow (rid sid lid : Int) (v ir : Option Rat) (n : Option Bool)
    (ex : Bool) : ScenarioLiabilityOverride :=
  { scenario_item_id := rid, scenario_id := sid, original_liability_id := lid,
    overrides_value := v.isSome, value := v,
    overrides_interest_rate := ir.isSome, interest_rate := ir,
    include_in_nest_egg := n.getD true, exclude_from_projection := ex }

/-- The fresh `scenario_inflows_outflows` row inserted by
`override_inflow_outflow`. -/
def freshInflowOutflowOverrideRow (rid sid ioid : Int) (am : Option Rat)
    (sy ey : Option Int) (ai : Option Bool) (ex : Bool) : ScenarioInflowOutflowOverride :=
  { scenario_item_id := rid, scenario_id := sid, original_inflow_outflow_id := ioid,
    overrides_annual_amount := am.isSome, annual_amount := am,
    overrides_start_year := sy.isSome, start_year := sy,
    overrides_end_year := ey.isSome, end_year := ey,
    apply_inflation := ai.getD false, exclude_from_projection := ex }

/-- The fresh `scenario_retirement_income` row inserted by
`override_retirement_income`. -/
def freshRetirementIncomeOverrideRow (rid sid ripid : Int) (am : Option Rat)
    (sa ea : Option Int) (ai n : Option Bool) (ex : Bool) :
    ScenarioRetirementIncomeOverride :=
  { scenario_item_id := rid, scenario_id := sid, original_income_plan_id := ripid,
    overrides_annual_income := am.isSome, annual_income := am,
    overrides_start_age := sa.isSome, start_age := sa,
    overrides_end_age := ea.isSome, end_age := ea,
    apply_inflation := ai.getD false, include_in_nest_egg := n.getD true,
    exclude_from_projection := ex }

/-- `override_liability`, create path. -/
theorem override_liability_create_eq (s : Store) (sid lid : Int) (v ir : Option Rat)
    (n : Option Bool) (ex : Bool) (l : Liability) (sc : Scenario)
    (hv : v.any (fun x => decide (x < 0)) = false)
    (hg : ir.any (fun x => decide (x < -200) || decide (x > 200)) = false)
    (hl : s.findLiability lid = some l) (hsc : s.findScenario sid = some sc)
    (hplan : l.plan_id = sc.plan_id)
    (hnone : s.findLiabilityOverride sid lid = none) :
    override_liability s sid lid v ir n ex =
      (.ok s.next_id,
       { s with scenario_liabilities := s.scenario_liabilities ++ [freshLiabilityOverrideRow s.next_id sid lid v ir n ex], next_id := s.next_id + 1 }) := by
  simp only [override_liability, override_liability_body, transact, hl, hsc, hplan, hv, hg,
    hnone, bne_self_eq_false, Bool.false_eq_true, if_false, freshLiabilityOverrideRow]

/-- `override_liability`, update path. -/
theorem override_liability_update_eq (s : Store) (sid lid : Int) (v ir : Option Rat)
    (n : Option Bool) (ex : Bool) (l : Liability) (sc : Scenario)
    (row : ScenarioLiabilityOverride)
    (hv : v.any (fun x => decide (x < 0)) = false)
    (hg : ir.any (fun x => decide (x < -200) || decide (x > 200)) = false)
    (hl : s.findLiability lid = some l) (hsc : s.findScenario sid = some sc)
    (hplan : l.plan_id = sc.plan_id)
    (hrow : s.findLiabilityOverride sid lid = some row) :
    override_liability s sid lid v ir n ex =
      (.ok row.scenario_item_id,
       { s with scenario_liabilities := s.scenario_liabilities.map (fun r => if r.scenario_item_id == row.scenario_item_id then liabilityRowAfterUpdate row v ir n ex else r) }) := by
  simp only [override_liability, override_liability_body, transact, hl, hsc, hplan, hv, hg,
    hrow, bne_self_eq_false, Bool.false_eq_true, if_false, liabilityRowAfterUpdate]

/-- `override_inflow_outflow`, create path. -/
theorem override_inflow_outflow_create_eq (s : Store) (sid ioid : Int) (am : Option Rat)
    (sy ey : Option Int) (ai : Option Bool) (ex : Bool) (io : InflowOutflow) (sc : Scenario)
    (hio : s.findInflowOutflow ioid = some io) (hsc : s.findScenario sid = some sc)
    (hplan : io.plan_id = sc.plan_id)
    (hyear : ¬ (sy.getD io.start_year > ey.getD io.end_year))
    (hnone : s.findInflowOutflowOverride sid ioid = none) :
    override_inflow_outflow s sid ioid am sy ey ai ex =
      (.ok s.next_id,
       { s with scenario_inflows_outflows := s.scenario_inflows_outflows ++ [freshInflowOutflowOverrideRow s.next_id sid ioid am sy ey ai ex], next_id := s.next_id + 1 }) := by
  simp only [override_inflow_outflow, override_inflow_outflow_body, transact, hio, hsc,
    hplan, hnone, bne_self_eq_false, Bool.false_eq_true, if_false,
    freshInflowOutflowOverrideRow]
  rw [if_neg hyear]

/-- `override_inflow_outflow`, update path. -/
theorem override_inflow_outflow_update_eq (s : Store) (sid ioid : Int) (am : Option Rat)
    (sy ey : Option Int) (ai : Option Bool) (ex : Bool) (io : InflowOutflow) (sc : Scenario)
    (row : ScenarioInflowOutflowOverride)
    (hio : s.findInflowOutflow ioid = some io) (hsc : s.findScenario sid = some sc)
    (hplan : io.plan_id = sc.plan_id)
    (hyear : ¬ (sy.getD io.start_year > ey.getD io.end_year))
    (hrow : s.findInflowOutflowOverride sid ioid = some row) :
    override_inflow_outflow s sid ioid am sy ey ai ex =
      (.ok row.scenario_item_id,
       { s with scenario_inflows_outflows := s.scenario_inflows_outflows.map (fun r => if r.scenario_item_id == row.scenario_item_id then inflowOutflowRowAfterUpdate row am sy ey ai ex else r) }) := by
  simp only [override_inflow_outflow, override_inflow_outflow_body, transact, hio, hsc,
    hplan, hrow, bne_self_eq_false, Bool.false_eq_true, if_false,
    inflowOutflowRowAfterUpdate]
  rw [if_neg hyear]

/-- `override_retirement_income`, create path. -/
theorem override_retirement_income_create_eq (s : Store) (sid ripid : Int)
    (am : Option Rat) (sa ea : Option Int) (ai n : Option Bool) (ex : Bool)
    (rip : RetirementIncomePlan) (sc : Scenario)
    (hrip : s.findRetirementIncomePlan ripid = some rip)
    (hsc : s.findScenario sid = some sc) (hplan : rip.plan_id = sc.plan_id)
    (hage : (ea.or rip.end_age).any
      (fun e => decide (sa.getD rip.start_age > e)) = false)
    (hnone : s.findRetirementIncomeOverride sid ripid = none) :
    override_retirement_income s sid ripid am sa ea ai n ex =
      (.ok s.next_id,
       { s with scenario_retirement_income := s.scenario_retirement_income ++ [freshRetirementIncomeOverrideRow s.next_id sid ripid am sa ea ai n ex], next_id := s.next_id + 1 }) := by
  cases ea with
  | some e =>
    simp only [Option.or] at hage
    simp only [override_retirement_income, override_retirement_income_body, transact, hrip,
      hsc, hplan, hage, hnone, bne_self_eq_false, Bool.false_eq_true, if_false,
      freshRetirementIncomeOverrideRow]
  | none =>
    simp only [Option.or] at hage
    simp only [override_retirement_income, override_retirement_income_body, transact, hrip,
      hsc, hplan, hage, hnone, bne_self_eq_false, Bool.false_eq_true, if_false,
      freshRetirementIncomeOverrideRow]

/-- `override_retirement_income`, update path. -/
theorem override_retirement_income_update_eq (s : Store) (sid ripid : Int)
    (am : Option Rat) (sa ea : Option Int) (ai n : Option Bool) (ex : Bool)
    (rip : RetirementIncomePlan) (sc : Scenario)
    (row : ScenarioRetirementIncomeOverride)
    (hrip : s.findRetirementIncomePlan ripid = some rip)
    (hsc : s.findScenario sid = some sc) (hplan : rip.plan_id = sc.plan_id)
    (hage : (ea.or rip.end_age).any
      (fun e => decide (sa.getD rip.start_age > e)) = false)
    (hrow : s.findRetirementIncomeOverride sid ripid = some row) :
    override_retirement_income s sid ripid am sa ea ai n ex =
      (.ok row.scenario_item_id,
       { s with scenario_retirement_income := s.scenario_retirement_income.map (fun r => if r.scenario_item_id == row.scenario_item_id then retirementIncomeRowAfterUpdate row am sa ea ai n ex else r) }) := by
  cases ea with
  | some e =>
    simp only [Option.or] at hage
    simp only [override_retirement_income, override_retirement_income_body, transact, hrip,
      hsc, hplan, hage, hrow, bne_self_eq_false, Bool.false_eq_true, if_false,
      retirementIncomeRowAfterUpdate]
  | none =>
    simp only [Option.or] at hage
    simp only [override_retirement_income, override_retirement_income_body, transact, hrip,
      hsc, hplan, hage, hrow, bne_self_eq_false, Bool.false_eq_true, if_false,
      retirementIncomeRowAfterUpdate]

/-- `update_person_overrides`, create path: the inserted row's flags are set
exactly for the supplied age fields and `exclude_from_projection` is left at
its default `false`. -/
theorem update_person_overrides_create_eq (s : Store) (sid pid : Int) (ra fa : Option Int)
    (p : Person) (sc : Scenario) (pl : Plan)
    (hp : s.findPerson pid = some p) (hsc : s.findScenario sid = some sc)
    (hpl : s.findPlan sc.plan_id = some pl)
    (hh : p.household_id = pl.household_id)
    (hra : ¬ (ra.getD p.retirement_age ≤ 0))
    (hfa : ¬ (fa.getD p.final_age ≤ ra.getD p.retirement_age))
    (hnone : s.findPersonOverride sid pid = none) :
    update_person_overrides s sid pid ra fa =
      (.ok true,
       { s with scenario_person_overrides := s.scenario_person_overrides ++ [freshPersonOverrideRow sid pid ra fa] }) := by
  simp only [update_person_overrides, update_person_overrides_body, transact, hp, hsc, hpl,
    hh, hnone, bne_self_eq_false, Bool.false_eq_true, if_false, freshPersonOverrideRow]
  rw [if_neg hra, if_neg hfa]

/-- `update_person_overrides`, update path: the two age fields merge in place
and nothing else in the row — in particular not `exclude_from_projection` —
changes. -/
theorem update_person_overrides_update_eq (s : Store) (sid pid : Int) (ra fa : Option Int)
    (p : Person) (sc : Scenario) (pl : Plan) (row : ScenarioPersonOverride)
    (hp : s.findPerson pid = some p) (hsc : s.findScenario sid = some sc)
    (hpl : s.findPlan sc.plan_id = some pl)
    (hh : p.household_id = pl.household_id)
    (hra : ¬ (ra.getD p.retirement_age ≤ 0))
    (hfa : ¬ (fa.getD p.final_age ≤ ra.getD p.retirement_age))
    (hrow : s.findPersonOverride sid pid = some row) :
    update_person_overrides s sid pid ra fa =
      (.ok true,
       { s with scenario_person_overrides := s.scenario_person_overrides.map (fun r => if r.scenario_id == sid && r.person_id == pid then personRowAfterUpdate row ra fa else r) }) := by
  simp only [update_person_overrides, update_person_overrides_body, transact, hp, hsc, hpl,
    hh, hrow, bne_self_eq_false, Bool.false_eq_true, if_false, personRowAfterUpdate]
  rw [if_neg hra, if_neg hfa]

/-! ## C5: per-field flags and the exclusion flag across override kinds -/

/-- The test store with a pre-existing person-override row for
(scenario 70, person 1) whose (spec-modelled) `exclude_from_projection`
column holds `true`. -/
def testStorePersonExcluded : Store :=
  { testStore with scenario_person_overrides :=
      [{ scenario_id := 70, person_id := 1, overrides_retirement_age := false,
         retirement_age := none, overrides_final_age := false, final_age := none,
         exclude_from_projection := true }] }

/-- The test store with a pre-existing asset-override row for
(scenario 70, asset 30) whose `exclude_from_projection` flag is `true`. -/
def testStoreAssetExcluded : Store :=
  { testStore with scenario_assets :=
      [{ scenario_asset_id := 90, scenario_id := 70, original_asset_id := 30,
         overrides_value := false, value := none,
         overrides_independent_growth_rate := false, independent_growth_rate := none,
         include_in_nest_egg := true, exclude_from_projection := true }] }

/-- Counterexample to C5: `excludeFromProjection` is *not* rewritten on every
upsert call for every kind.  A person-override upsert (which accepts no
exclusion argument and so, per the claim, would rewrite the flag with its
default `false`) leaves a stored `true` exclusion untouched, while the
analogous asset upsert with the default argument rewrites the stored `true`
back to `false`. -/
theorem person_override_exclusion_not_rewritten :
    (update_person_overrides testStorePersonExcluded 70 1 (some 70) none).1 = .ok true ∧
    Store.findPersonOverride
        (update_person_overrides testStorePersonExcluded 70 1 (some 70) none).2 70 1 =
      some { scenario_id := 70, person_id := 1, overrides_retirement_age := true,
             retirement_age := some 70, overrides_final_age := false, final_age := none,
             exclude_from_projection := true } ∧
    (override_asset testStoreAssetExcluded 70 30 (some 1) none none false).1 = .ok 90 ∧
    Store.findAssetOverride
        (override_asset testStoreAssetExcluded 70 30 (some 1) none none false).2 70 30 =
      some { scenario_asset_id := 90, scenario_id := 70, original_asset_id := 30,
             overrides_value := true, value := some 1,
             overrides_independent_growth_rate := false, independent_growth_rate := none,
             include_in_nest_egg := true, exclude_from_projection := false } :=
  ⟨rfl, rfl, rfl, rfl⟩

/-- C5 amended: for each of the four non-person kinds (asset, liability,
inflow/outflow, retirement income) every value-bearing overridable field
stores an independent overridden flag that becomes set exactly when the field
is supplied — set on create iff supplied, turned on (never off) by an update
supplying it — and `exclude_from_projection` defaults to the argument
(`false` in Python) on create and is rewritten from the argument on every
update; the flagless booleans (`include_in_nest_egg`, `apply_inflation`)
carry no overridden flag.  For the person kind the two age fields carry the
same flag semantics, but the upsert accepts no exclusion argument and never
touches `exclude_from_projection`: it stays `false` from create onward unless
some external writer changes it. -/
theorem override_row_flag_semantics :
    (∀ (s : Store) (sid aid : Int) (v g : Option Rat) (n : Option Bool) (ex : Bool)
        (a : Asset) (sc : Scenario),
      v.any (fun x => decide (x < 0)) = false →
      g.any (fun x => decide (x < -200) || decide (x > 200)) = false →
      s.findAsset aid = some a → s.findScenario sid = some sc → a.plan_id = sc.plan_id →
      s.findAssetOverride sid aid = none →
      ∃ row, (override_asset s sid aid v g n ex).2.findAssetOverride sid aid = some row ∧
        row.overrides_value = v.isSome ∧ row.value = v ∧
        row.overrides_independent_growth_rate = g.isSome ∧
        row.independent_growth_rate = g ∧
        row.exclude_from_projection = ex) ∧
    (∀ (s : Store) (sid aid : Int) (v g : Option Rat) (n : Option Bool) (ex : Bool)
        (a : Asset) (sc : Scenario) (row : ScenarioAssetOverride),
      v.any (fun x => decide (x < 0)) = false →
      g.any (fun x => decide (x < -200) || decide (x > 200)) = false →
      s.findAsset aid = some a → s.findScenario sid = some sc → a.plan_id = sc.plan_id →
      s.findAssetOverride sid aid = some row →
      (s.scenario_assets.map (fun r => r.scenario_asset_id)).Nodup →
      ∃ row2, (override_asset s sid aid v g n ex).2.findAssetOverride sid aid = some row2 ∧
        row2 = assetRowAfterUpdate row v g n ex ∧
        row2.overrides_value = (v.isSome || row.overrides_value) ∧
        row2.overrides_independent_growth_rate =
          (g.isSome || row.overrides_independent_growth_rate) ∧
        row2.exclude_from_projection = ex) ∧
    (∀ (s : Store) (sid lid : Int) (v ir : Option Rat) (n : Option Bool) (ex : Bool)
        (l : Liability) (sc : Scenario),
      v.any (fun x => decide (x < 0)) = false →
      ir.any (fun x => decide (x < -200) || decide (x > 200)) = false →
      s.findLiability lid = some l → s.findScenario sid = some sc →
      l.plan_id = sc.plan_id →
      s.findLiabilityOverride sid lid = none →
      ∃ row, (override_liability s sid lid v ir n ex).2.findLiabilityOverride sid lid =
          some row ∧
        row.overrides_value = v.isSome ∧ row.value = v ∧
        row.overrides_interest_rate = ir.isSome ∧ row.interest_rate = ir ∧
        row.exclude_from_projection = ex) ∧
    (∀ (s : Store) (sid lid : Int) (v ir : Option Rat) (n : Option Bool) (ex : Bool)
        (l : Liability) (sc : Scenario) (row : ScenarioLiabilityOverride),
      v.any (fun x => decide (x < 0)) = false →
      ir.any (fun x => decide (x < -200) || decide (x > 200)) = false →
      s.findLiability lid = some l → s.findScenario sid = some sc →
      l.plan_id = sc.plan_id →
      s.findLiabilityOverride sid lid = some row →
      (s.scenario_liabilities.map (fun r => r.scenario_item_id)).Nodup →
      ∃ row2, (override_liability s sid lid v ir n ex).2.findLiabilityOverride sid lid =
          some row2 ∧
        row2 = liabilityRowAfterUpdate row v ir n ex ∧
        row2.overrides_value = (v.isSome || row.overrides_value) ∧
        row2.overrides_interest_rate = (ir.isSome || row.overrides_interest_rate) ∧
        row2.exclude_from_projection = ex) ∧
    (∀ (s : Store) (sid ioid : Int) (am : Option Rat) (sy ey : Option Int)
        (ai : Option Bool) (ex : Bool) (io : InflowOutflow) (sc : Scenario),
      s.findInflowOutflow ioid = some io → s.findScenario sid = some sc →
      io.plan_id = sc.plan_id →
      ¬ (sy.getD io.start_year > ey.getD io.end_year) →
      s.findInflowOutflowOverride sid ioid = none →
      ∃ row, (override_inflow_outflow s sid ioid am sy ey ai
          ex).2.findInflowOutflowOverride sid ioid = some row ∧
        row.overrides_annual_amount = am.isSome ∧ row.annual_amount = am ∧
        row.overrides_start_year = sy.isSome ∧ row.start_year = sy ∧
        row.overrides_end_year = ey.isSome ∧ row.end_year = ey ∧
        row.exclude_from_projection = ex) ∧
    (∀ (s : Store) (sid ioid : Int) (am : Option Rat) (sy ey : Option Int)
        (ai : Option Bool) (ex : Bool) (io : InflowOutflow) (sc : Scenario)
        (row : ScenarioInflowOutflowOverride),
      s.findInflowOutflow ioid = some io → s.findScenario sid = some sc →
      io.plan_id = sc.plan_id →
      ¬ (sy.getD io.start_year > ey.getD io.end_year) →
      s.findInflowOutflowOverride sid ioid = some row →
      (s.scenario_inflows_outflows.map (fun r => r.scenario_item_id)).Nodup →
      ∃ row2, (override_inflow_outflow s sid ioid am sy ey ai
          ex).2.findInflowOutflowOverride sid ioid = some row2 ∧
        row2 = inflowOutflowRowAfterUpdate row am sy ey ai ex ∧
        row2.overrides_annual_amount = (am.isSome || row.overrides_annual_amount) ∧
        row2.overrides_start_year = (sy.isSome || row.overrides_start_year) ∧
        row2.overrides_end_year = (ey.isSome || row.overrides_end_year) ∧
        row2.exclude_from_projection = ex) ∧
    (∀ (s : Store) (sid ripid : Int) (am : Option Rat) (sa ea : Option Int)
        (ai n : Option Bool) (ex : Bool) (rip : RetirementIncomePlan) (sc : Scenario),
      s.findRetirementIncomePlan ripid = some rip → s.findScenario sid = some sc →
      rip.plan_id = sc.plan_id →
      (ea.or rip.end_age).any (fun e => decide (sa.getD rip.start_age > e)) = false →
      s.findRetirementIncomeOverride sid ripid = none →
      ∃ row, (override_retirement_income s sid ripid am sa ea ai n
          ex).2.findRetirementIncomeOverride sid ripid = some row ∧
        row.overrides_annual_income = am.isSome ∧ row.annual_income = am ∧
        row.overrides_start_age = sa.isSome ∧ row.start_age = sa ∧
        row.overrides_end_age = ea.isSome ∧ row.end_age = ea ∧
        row.exclude_from_projection = ex) ∧
    (∀ (s : Store) (sid ripid : Int) (am : Option Rat) (sa ea : Option Int)
        (ai n : Option Bool) (ex : Bool) (rip : RetirementIncomePlan) (sc : Scenario)
        (row : ScenarioRetirementIncomeOverride),
      s.findRetirementIncomePlan ripid = some rip → s.findScenario sid = some sc →
      rip.plan_id = sc.plan_id →
      (ea.or rip.end_age).any (fun e => decide (sa.getD rip.start_age > e)) = false →
      s.findRetirementIncomeOverride sid ripid = some row →
      (s.scenario_retirement_income.map (fun r => r.scenario_item_id)).Nodup →
      ∃ row2, (override_retirement_income s sid ripid am sa ea ai n
          ex).2.findRetirementIncomeOverride sid ripid = some row2 ∧
        row2 = retirementIncomeRowAfterUpdate row am sa ea ai n ex ∧
        row2.overrides_annual_income = (am.isSome || row.overrides_annual_income) ∧
        row2.overrides_start_age = (sa.isSome || row.overrides_start_age) ∧
        row2.overrides_end_age = (ea.isSome || row.overrides_end_age) ∧
        row2.exclude_from_projection = ex) ∧
    (∀ (s : Store) (sid pid : Int) (ra fa : Option Int) (p : Person) (sc : Scenario)
        (pl : Plan),
      s.findPerson pid = some p → s.findScenario sid = some sc →
      s.findPlan sc.plan_id = some pl → p.household_id = pl.household_id →
      ¬ (ra.getD p.retirement_age ≤ 0) →
      ¬ (fa.getD p.final_age ≤ ra.getD p.retirement_age) →
      s.findPersonOverride sid pid = none →
      ∃ row, (update_person_overrides s sid pid ra fa).2.findPersonOverride sid pid =
          some row ∧
        row.overrides_retirement_age = ra.isSome ∧ row.retirement_age = ra ∧
        row.overrides_final_age = fa.isSome ∧ row.final_age = fa ∧
        row.exclude_from_projection = false) ∧
    (∀ (s : Store) (sid pid : Int) (ra fa : Option Int) (p : Person) (sc : Scenario)
        (pl : Plan) (row : ScenarioPersonOverride),
      s.findPerson pid = some p → s.findScenario sid = some sc →
      s.findPlan sc.plan_id = some pl → p.household_id = pl.household_id →
      ¬ (ra.getD p.retirement_age ≤ 0) →
      ¬ (fa.getD p.final_age ≤ ra.getD p.retirement_age) →
      s.findPersonOverride sid pid = some row →
      ∃ row2, (update_person_overrides s sid pid ra fa).2.findPersonOverride sid pid =
          some row2 ∧
        row2 = personRowAfterUpdate row ra fa ∧
        row2.overrides_retirement_age = (ra.isSome || row.overrides_retirement_age) ∧
        row2.overrides_final_age = (fa.isSome || row.overrides_final_age) ∧
        row2.exclude_from_projection = row.exclude_from_projection) := by
  refine ⟨?_, ?_, ?_, ?_, ?_, ?_, ?_, ?_, ?_, ?_⟩
  · intro s sid aid v g n ex a sc hv hg ha hsc hplan hnone
    rw [override_asset_create_eq s sid aid v g n ex a sc hv hg ha hsc hplan hnone]
    refine ⟨freshAssetOverrideRow s.next_id sid aid v g n ex, ?_, rfl, rfl, rfl, rfl, rfl⟩
    simp only [Store.findAssetOverride] at hnone ⊢
    rw [List.find?_append, hnone]
    simp [List.find?, freshAssetOverrideRow]
  · intro s sid aid v g n ex a sc row hv hg ha hsc hplan hrow hN
    rw [override_asset_update_eq s sid aid v g n ex a sc row hv hg ha hsc hplan hrow]
    refine ⟨assetRowAfterUpdate row v g n ex, ?_, rfl, ?_, ?_, rfl⟩
    · simp only [Store.findAssetOverride] at hrow ⊢
      rw [map_keyed_beq_eq_map_pointwise _ _ row _ (List.mem_of_find?_eq_some hrow) hN]
      apply find?_map_update_pointwise _ _ row _ hrow
      have hp := List.find?_some hrow
      simpa [assetRowAfterUpdate] using hp
    · cases v <;> simp [assetRowAfterUpdate]
    · cases g <;> simp [assetRowAfterUpdate]
  · intro s sid lid v ir n ex l sc hv hg hl hsc hplan hnone
    rw [override_liability_create_eq s sid lid v ir n ex l sc hv hg hl hsc hplan hnone]
    refine ⟨freshLiabilityOverrideRow s.next_id sid lid v ir n ex, ?_, rfl, rfl, rfl, rfl,
      rfl⟩
    simp only [Store.findLiabilityOverride] at hnone ⊢
    rw [List.find?_append, hnone]
    simp [List.find?, freshLiabilityOverrideRow]
  · intro s sid lid v ir n ex l sc row hv hg hl hsc hplan hrow hN
    rw [override_liability_update_eq s sid lid v ir n ex l sc row hv hg hl hsc hplan hrow]
    refine ⟨liabilityRowAfterUpdate row v ir n ex, ?_, rfl, ?_, ?_, rfl⟩
    · simp only [Store.findLiabilityOverride] at hrow ⊢
      rw [map_keyed_beq_eq_map_pointwise _ _ row _ (List.mem_of_find?_eq_some hrow) hN]
      apply find?_map_update_pointwise _ _ row _ hrow
      have hp := List.find?_some hrow
      simpa [liabilityRowAfterUpdate] using hp
    · cases v <;> simp [liabilityRowAfterUpdate]
    · cases ir <;> simp [liabilityRowAfterUpdate]
  · intro s sid ioid am sy ey ai ex io sc hio hsc hplan hyear hnone
    rw [override_inflow_outflow_create_eq s sid ioid am sy ey ai ex io sc hio hsc hplan
      hyear hnone]
    refine ⟨freshInflowOutflowOverrideRow s.next_id sid ioid am sy ey ai ex, ?_, rfl, rfl,
      rfl, rfl, rfl, rfl, rfl⟩
    simp only [Store.findInflowOutflowOverride] at hnone ⊢
    rw [List.find?_append, hnone]
    simp [List.find?, freshInflowOutflowOverrideRow]
  · intro s sid ioid am sy ey ai ex io sc row hio hsc hplan hyear hrow hN
    rw [override_inflow_outflow_update_eq s sid ioid am sy ey ai ex io sc row hio hsc
      hplan hyear hrow]
    refine ⟨inflowOutflowRowAfterUpdate row am sy ey ai ex, ?_, rfl, ?_, ?_, ?_, rfl⟩
    · simp only [Store.findInflowOutflowOverride] at hrow ⊢
      rw [map_keyed_beq_eq_map_pointwise _ _ row _ (List.mem_of_find?_eq_some hrow) hN]
      apply find?_map_update_pointwise _ _ row _ hrow
      have hp := List.find?_some hrow
      simpa [inflowOutflowRowAfterUpdate] using hp
    · cases am <;> simp [inflowOutflowRowAfterUpdate]
    · cases sy <;> simp [inflowOutflowRowAfterUpdate]
    · cases ey <;> simp [inflowOutflowRowAfterUpdate]
  · intro s sid ripid am sa ea ai n ex rip sc hrip hsc hplan hage hnone
    rw [override_retirement_income_create_eq s sid ripid am sa ea ai n ex rip sc hrip hsc
      hplan hage hnone]
    refine ⟨freshRetirementIncomeOverrideRow s.next_id sid ripid am sa ea ai n ex, ?_,
      rfl, rfl, rfl, rfl, rfl, rfl, rfl⟩
    simp only [Store.findRetirementIncomeOverride] at hnone ⊢
    rw [List.find?_append, hnone]
    simp [List.find?, freshRetirementIncomeOverrideRow]
  · intro s sid ripid am sa ea ai n ex rip sc row hrip hsc hplan hage hrow hN
    rw [override_retirement_income_update_eq s sid ripid am sa ea ai n ex rip sc row hrip
      hsc hplan hage hrow]
    refine ⟨retirementIncomeRowAfterUpdate row am sa ea ai n ex, ?_, rfl, ?_, ?_, ?_, rfl⟩
    · simp only [Store.findRetirementIncomeOverride] at hrow ⊢
      rw [map_keyed_beq_eq_map_pointwise _ _ row _ (List.mem_of_find?_eq_some hrow) hN]
      apply find?_map_update_pointwise _ _ row _ hrow
      have hp := List.find?_some hrow
      simpa [retirementIncomeRowAfterUpdate] using hp
    · cases am <;> simp [retirementIncomeRowAfterUpdate]
    · cases sa <;> simp [retirementIncomeRowAfterUpdate]
    · cases ea <;> simp [retirementIncomeRowAfterUpdate]
  · intro s sid pid ra fa p sc pl hp hsc hpl hh hra hfa hnone
    rw [update_person_overrides_create_eq s sid pid ra fa p sc pl hp hsc hpl hh hra hfa
      hnone]
    refine ⟨freshPersonOverrideRow sid pid ra fa, ?_, rfl, rfl, rfl, rfl, rfl⟩
    simp only [Store.findPersonOverride] at hnone ⊢
    rw [List.find?_append, hnone]
    simp [List.find?, freshPersonOverrideRow]
  · intro s sid pid ra fa p sc pl row hp hsc hpl hh hra hfa hrow
    rw [update_person_overrides_update_eq s sid pid ra fa p sc pl row hp hsc hpl hh hra
      hfa hrow]
    refine ⟨personRowAfterUpdate row ra fa, ?_, rfl, ?_, ?_, rfl⟩
    · simp only [Store.findPersonOverride] at hrow ⊢
      apply find?_map_update_all
      · have hp2 := List.find?_some hrow
        simpa [personRowAfterUpdate] using hp2
      · rw [hrow]
        rfl
    · cases ra <;> simp [personRowAfterUpdate]
    · cases fa <;> simp [personRowAfterUpdate]

/-- Witness for the amended C5: concrete create calls for the asset,
liability, inflow/outflow and retirement-income kinds each set exactly the
supplied field's flag with `exclude_from_projection = false`; updating the
pre-excluded person row merges the supplied retirement age and leaves the
exclusion flag `true`. -/
theorem override_row_flag_semantics_witness :
    (∃ row, (override_asset testStore 70 30 (some 150000) none none
        false).2.findAssetOverride 70 30 = some row ∧
      row.overrides_value = true ∧ row.value = some 150000 ∧
      row.overrides_independent_growth_rate = false ∧
      row.independent_growth_rate = none ∧
      row.exclude_from_projection = false) ∧
    (∃ row, (override_liability testStore 70 40 (some 2500) none none
        false).2.findLiabilityOverride 70 40 = some row ∧
      row.overrides_value = true ∧ row.value = some 2500 ∧
      row.overrides_interest_rate = false ∧
      row.exclude_from_projection = false) ∧
    (∃ row, (override_inflow_outflow testStore 70 50 none (some 2025) none none
        false).2.findInflowOutflowOverride 70 50 = some row ∧
      row.overrides_start_year = true ∧ row.start_year = some 2025 ∧
      row.overrides_annual_amount = false ∧ row.overrides_end_year = false ∧
      row.exclude_from_projection = false) ∧
    (∃ row, (override_retirement_income testStore 70 60 (some 40000) none none none none
        false).2.findRetirementIncomeOverride 70 60 = some row ∧
      row.overrides_annual_income = true ∧ row.annual_income = some 40000 ∧
      row.overrides_start_age = false ∧ row.overrides_end_age = false ∧
      row.exclude_from_projection = false) ∧
    (∃ row2, (update_person_overrides testStorePersonExcluded 70 1 (some 70)
        none).2.findPersonOverride 70 1 = some row2 ∧
      row2.overrides_retirement_age = true ∧ row2.overrides_final_age = false ∧
      row2.exclude_from_projection = true) := by
  refine ⟨?_, ?_, ?_, ?_, ?_⟩
  · have h := override_row_flag_semantics.1 testStore 70 30 (some 150000) none none false
      { asset_id := 30, plan_id := 10, asset_category_id := 20, asset_name := "Brokerage",
        value := 100000, include_in_nest_egg := true, independent_growth_rate := none }
      { scenario_id := 70, plan_id := 10, scenario_name := "Recession" }
      (by decide) (by decide) rfl rfl rfl rfl
    obtain ⟨row, h1, h2, h3, h4, h5, h6⟩ := h
    exact ⟨row, h1, h2, h3, h4, h5, h6⟩
  · have h := override_row_flag_semantics.2.2.1 testStore 70 40 (some 2500) none none
      false
      { liability_id := 40, plan_id := 10, value := 5000, interest_rate := none,
        include_in_nest_egg := true }
      { scenario_id := 70, plan_id := 10, scenario_name := "Recession" }
      (by decide) (by decide) rfl rfl rfl rfl
    obtain ⟨row, h1, h2, h3, h4, h5, h6⟩ := h
    exact ⟨row, h1, h2, h3, h4, h6⟩
  · have h := override_row_flag_semantics.2.2.2.2.1 testStore 70 50 none (some 2025) none
      none false
      { inflow_outflow_id := 50, plan_id := 10, flow_type := "INFLOW", name := "Salary",
        annual_amount := 1000, start_year := 2020, end_year := 2030,
        apply_inflation := false }
      { scenario_id := 70, plan_id := 10, scenario_name := "Recession" }
      rfl rfl rfl (by decide) rfl
    obtain ⟨row, h1, h2, h3, h4, h5, h6, h7, h8⟩ := h
    exact ⟨row, h1, h4, h5, h2, h6, h8⟩
  · have h := override_row_flag_semantics.2.2.2.2.2.2.1 testStore 70 60 (some 40000) none
      none none none false
      { income_plan_id := 60, plan_id := 10, name := "Pension", annual_income := 50000,
        start_age := 65, end_age := some 95 }
      { scenario_id := 70, plan_id := 10, scenario_name := "Recession" }
      rfl rfl rfl (by decide) rfl
    obtain ⟨row, h1, h2, h3, h4, h5, h6, h7, h8⟩ := h
    exact ⟨row, h1, h2, h3, h4, h6, h8⟩
  · have h := override_row_flag_semantics.2.2.2.2.2.2.2.2.2 testStorePersonExcluded 70 1
      (some 70) none
      { person_id := 1, household_id := 1, first_name := "A", last_name := "B",
        retirement_age := 65, final_age := 95 }
      { scenario_id := 70, plan_id := 10, scenario_name := "Recession" }
      { plan_id := 10, household_id := 1, plan_name := "Plan", reference_person_id := 1,
        plan_creation_year := 2024 }
      { scenario_id := 70, person_id := 1, overrides_retirement_age := false,
        retirement_age := none, overrides_final_age := false, final_age := none,
        exclude_from_projection := true }
      rfl rfl rfl rfl (by decide) (by decide) rfl
    obtain ⟨row2, h1, _, h3, h4, h5⟩ := h
    exact ⟨row2, h1, by rw [h3]; rfl, by rw [h4]; rfl, by rw [h5]⟩

/-! ## C1 / C2: the effective-assets read -/

/-- The category/owner join does not change the view row it wraps. -/
theorem joinEffectiveAsset_row {s : Store} {r : EffectiveAssetRow}
    {ea : EffectiveAssetDetails} (h : joinEffectiveAsset s r = some ea) : ea.row = r := by
  unfold joinEffectiveAsset at h
  cases hc : s.findAssetCategory r.asset_category_id with
  | none => rw [hc] at h; exact absurd h (by simp)
  | some c =>
    rw [hc] at h
    injection h with h2
    rw [← h2]

/-- The per-field merge keeps the base asset's identity columns. -/
theorem mergeAssetRow_asset_id (sid : Int) (a : Asset)
    (ov : Option ScenarioAssetOverride) : (mergeAssetRow sid a ov).asset_id = a.asset_id := by
  cases ov <;> rfl

/-- C1: in any store, for an asset of the scenario's plan that has a
non-excluding override row (and a resolvable category, which the reader's
inner join requires), `get_scenario_effective_assets` returns a record for
that asset whose fields are resolved independently per overridden flag —
`value` is the override value exactly when `overrides_value` is set and the
base value otherwise, and `independent_growth_rate` likewise, an unset base
value falling through as unset. -/
theorem get_scenario_effective_assets_merges_fields (s : Store) (sid aid : Int)
    (sc : Scenario) (a : Asset) (row : ScenarioAssetOverride) (c : AssetCategory)
    (hsc : s.findScenario sid = some sc)
    (ha : s.findAsset aid = some a)
    (hplan : a.plan_id = sc.plan_id)
    (hrow : s.findAssetOverride sid aid = some row)
    (hex : row.exclude_from_projection = false)
    (hcat : s.findAssetCategory a.asset_category_id = some c) :
    ∃ ea ∈ get_scenario_effective_assets s sid,
      ea.row.asset_id = aid ∧
      ea.row.value = (if row.overrides_value then row.value else some a.value) ∧
      ea.row.independent_growth_rate =
        (if row.overrides_independent_growth_rate then row.independent_growth_rate
         else a.independent_growth_rate) := by
  have haid : a.asset_id = aid := by
    have := List.find?_some ha
    simpa using this
  have hlook : s.findAssetOverride sid a.asset_id = some row := by rw [haid]; exact hrow
  have hmem1 : a ∈ s.assets := List.mem_of_find?_eq_some ha
  have hmem2 : a ∈ s.assets.filter (fun x => x.plan_id == sc.plan_id) :=
    List.mem_filter.mpr ⟨hmem1, by simp [hplan]⟩
  have hmem3 : a ∈ (s.assets.filter (fun x => x.plan_id == sc.plan_id)).filter
      (fun x => !((s.findAssetOverride sid x.asset_id).any
        (fun r2 => r2.exclude_from_projection))) :=
    List.mem_filter.mpr ⟨hmem2, by simp [hlook, Option.any, hex]⟩
  have hview : mergeAssetRow sid a (s.findAssetOverride sid a.asset_id) ∈
      scenario_effective_assets_view s sid := by
    simp only [scenario_effective_assets_view, hsc]
    exact List.mem_map_of_mem _ hmem3
  rw [hlook] at hview
  have hcat2 : s.findAssetCategory ((mergeAssetRow sid a (some row)).asset_category_id) =
      some c := by
    simpa [mergeAssetRow] using hcat
  have hj : ∃ ea, joinEffectiveAsset s (mergeAssetRow sid a (some row)) = some ea := by
    simp only [joinEffectiveAsset, hcat2]
    exact ⟨_, rfl⟩
  obtain ⟨ea, hj⟩ := hj
  have hearow : ea.row = mergeAssetRow sid a (some row) := joinEffectiveAsset_row hj
  refine ⟨ea, ?_, ?_, ?_, ?_⟩
  · simp only [get_scenario_effective_assets]
    rw [mem_sortEff]
    exact List.mem_filterMap.mpr ⟨_, hview, hj⟩
  · rw [hearow, mergeAssetRow_asset_id, haid]
  · rw [hearow]
    rfl
  · rw [hearow]
    rfl

/-- Witness for C1: the end-to-end concrete instance from the spec — base
asset `value = 100000`, `independent_growth_rate` unset; a scenario override
supplies `value = 150000` only; the effective read returns `value = 150000`
with the growth rate still unset. -/
theorem get_scenario_effective_assets_merges_fields_witness :
    (∃ ea ∈ get_scenario_effective_assets
        (override_asset testStore 70 30 (some 150000) none none false).2 70,
      ea.row.asset_id = 30 ∧ ea.row.value = some 150000 ∧
      ea.row.independent_growth_rate = none) := by
  have h := get_scenario_effective_assets_merges_fields
    (override_asset testStore 70 30 (some 150000) none none false).2 70 30
    { scenario_id := 70, plan_id := 10, scenario_name := "Recession" }
    { asset_id := 30, plan_id := 10, asset_category_id := 20, asset_name := "Brokerage",
      value := 100000, include_in_nest_egg := true, independent_growth_rate := none }
    { scenario_asset_id := 100, scenario_id := 70, original_asset_id := 30,
      overrides_value := true, value := some 150000,
      overrides_independent_growth_rate := false, independent_growth_rate := none,
      include_in_nest_egg := true, exclude_from_projection := false }
    { asset_category_id := 20, household_id := 1, category_name := "Brokerage" }
    rfl rfl rfl rfl rfl rfl
  simpa using h

/-- C2: an asset whose override row for the scenario sets
`exclude_from_projection` is absent from `get_scenario_effective_assets`, no
matter which field overrides the row carries, while the base asset record is
still returned by `get_asset` and the override row itself is still stored. -/
theorem excluded_asset_absent_from_effective_assets (s : Store) (sid aid : Int)
    (a : Asset) (row : ScenarioAssetOverride) (c : AssetCategory)
    (ha : s.findAsset aid = some a)
    (hcat : s.findAssetCategory a.asset_category_id = some c)
    (hrow : s.findAssetOverride sid aid = some row)
    (hex : row.exclude_from_projection = true) :
    (∀ ea ∈ get_scenario_effective_assets s sid, ea.row.asset_id ≠ aid) ∧
    (∃ d, get_asset s aid = some d ∧ d.asset = a) ∧
    row ∈ s.scenario_assets := by
  refine ⟨?_, ?_, List.mem_of_find?_eq_some hrow⟩
  · intro ea hmem heq
    simp only [get_scenario_effective_assets] at hmem
    rw [mem_sortEff] at hmem
    obtain ⟨r, hrv, hjoin⟩ := List.mem_filterMap.mp hmem
    have hearow : ea.row = r := joinEffectiveAsset_row hjoin
    rw [hearow] at heq
    simp only [scenario_effective_assets_view] at hrv
    cases hscen : s.findScenario sid with
    | none => rw [hscen] at hrv; simp at hrv
    | some sc =>
      rw [hscen] at hrv
      obtain ⟨a2, ha2, hmerge⟩ := List.mem_map.mp hrv
      have ha2id : a2.asset_id = aid := by
        rw [← heq, ← hmerge, mergeAssetRow_asset_id]
      have hfilter := (List.mem_filter.mp ha2).2
      rw [ha2id, hrow] at hfilter
      simp [Option.any, hex] at hfilter
  · simp only [get_asset, ha, hcat]
    exact ⟨_, rfl, rfl⟩

/-- Witness for C2: after excluding asset 30 from scenario 70 (while also
overriding its value), the effective-assets read is empty, yet `get_asset`
still returns the base record and the override row is still stored. -/
theorem excluded_asset_absent_from_effective_assets_witness :
    (∀ ea ∈ get_scenario_effective_assets
        (override_asset testStore 70 30 (some 150000) none none true).2 70,
      ea.row.asset_id ≠ 30) ∧
    (∃ d, get_asset (override_asset testStore 70 30 (some 150000) none none true).2 30 =
        some d ∧
      d.asset = { asset_id := 30, plan_id := 10, asset_category_id := 20,
                  asset_name := "Brokerage", value := 100000, include_in_nest_egg := true,
                  independent_growth_rate := none }) ∧
    get_scenario_effective_assets
        (override_asset testStore 70 30 (some 150000) none none true).2 70 = [] := by
  have h := excluded_asset_absent_from_effective_assets
    (override_asset testStore 70 30 (some 150000) none none true).2 70 30
    { asset_id := 30, plan_id := 10, asset_category_id := 20, asset_name := "Brokerage",
      value := 100000, include_in_nest_egg := true, independent_growth_rate := none }
    { scenario_asset_id := 100, scenario_id := 70, original_asset_id := 30,
      overrides_value := true, value := some 150000,
      overrides_independent_growth_rate := false, independent_growth_rate := none,
      include_in_nest_egg := true, exclude_from_projection := true }
    { asset_category_id := 20, household_id := 1, category_name := "Brokerage" }
    rfl rfl rfl rfl
  exact ⟨h.1, h.2.1, rfl⟩

/-! ## C4: idempotent upsert — at most one override row per pair -/

theorem transact_fst {α : Type} (rs : Except DbError α × Store) (s0 : Store) :
    (transact rs s0).1 = rs.1 := by
  rcases rs with ⟨r, st⟩
  cases r <;> rfl

theorem transact_snd_ok {α : Type} {rs : Except DbError α × Store} {s0 : Store} {a : α}
    (h : rs.1 = .ok a) : (transact rs s0).2 = rs.2 := by
  rcases rs with ⟨r, st⟩
  cases r with
  | ok b => rfl
  | error e => simp at h

/-- The three possible outcomes of `override_asset_body` on the
`scenario_assets` table: an error leaving the store untouched, a create
appending the fresh row, or an update rewriting the found row in place. -/
theorem override_asset_body_table_cases (s : Store) (sid aid : Int) (v g : Option Rat)
    (n : Option Bool) (ex : Bool) :
    ((∃ e, (override_asset_body s sid aid v g n ex).1 = .error e) ∧
      (override_asset_body s sid aid v g n ex).2 = s) ∨
    (s.findAssetOverride sid aid = none ∧
      (override_asset_body s sid aid v g n ex).1 = .ok s.next_id ∧
      (override_asset_body s sid aid v g n ex).2.scenario_assets =
        s.scenario_assets ++ [freshAssetOverrideRow s.next_id sid aid v g n ex]) ∨
    (∃ row, s.findAssetOverride sid aid = some row ∧
      (override_asset_body s sid aid v g n ex).1 = .ok row.scenario_asset_id ∧
      (override_asset_body s sid aid v g n ex).2.scenario_assets =
        s.scenario_assets.map (fun r => if r.scenario_asset_id == row.scenario_asset_id then assetRowAfterUpdate row v g n ex else r)) := by
  unfold override_asset_body
  split
  · exact .inl ⟨⟨_, rfl⟩, rfl⟩
  · split
    · exact .inl ⟨⟨_, rfl⟩, rfl⟩
    · split
      · split
        · exact .inl ⟨⟨_, rfl⟩, rfl⟩
        · split
          · rename_i row heq
            exact .inr (.inr ⟨row, heq, rfl, by simp [assetRowAfterUpdate]⟩)
          · rename_i heq
            exact .inr (.inl ⟨heq, rfl, by simp [freshAssetOverrideRow]⟩)
      · exact .inl ⟨⟨_, rfl⟩, rfl⟩

/-- Create path: appending the fresh row to a table with no matching row
leaves exactly one matching row. -/
theorem upsert_count_create {α : Type} (l : List α) (p : α → Bool) (fresh : α)
    (hnone : l.find? p = none) (hfresh : p fresh = true) :
    ((l ++ [fresh]).filter p).length = 1 := by
  rw [List.filter_append, List.filter_eq_nil_iff.mpr (List.find?_eq_none.mp hnone)]
  simp [hfresh]

/-- Update path: rewriting the found row in place keeps exactly one matching
row, provided row ids are unique and the table held at most one match. -/
theorem upsert_count_update {α : Type} [DecidableEq α] (l : List α) (p : α → Bool)
    (key : α → Int) (row updRow : α)
    (hfind : l.find? p = some row) (hupd : p updRow = p row)
    (hN : (l.map key).Nodup) (hc : (l.filter p).length ≤ 1) :
    ((l.map (fun x => if key x == key row then updRow else x)).filter p).length = 1 := by
  rw [map_keyed_beq_eq_map_pointwise l key row updRow (List.mem_of_find?_eq_some hfind) hN,
    length_filter_map_update_pointwise l p row updRow hupd]
  have hmem : row ∈ l.filter p :=
    List.mem_filter.mpr ⟨List.mem_of_find?_eq_some hfind, List.find?_some hfind⟩
  have hpos : 0 < (l.filter p).length := List.length_pos_of_mem hmem
  omega

/-- Update path for a table keyed by the match predicate itself (the person
kind): the match count is preserved. -/
theorem length_filter_map_update_all {α : Type} (l : List α) (p : α → Bool) (r' : α)
    (hp' : p r' = true) :
    ((l.map (fun x => if p x then r' else x)).filter p).length = (l.filter p).length := by
  induction l with
  | nil => simp
  | cons a t ih =>
    by_cases hpa : p a = true
    · simp only [List.map_cons, if_pos hpa, List.filter_cons, hp', hpa, if_true]
      simp [ih]
    · have hpa0 : p a = false := by simpa using hpa
      simp only [List.map_cons, if_neg hpa, List.filter_cons]
      simp [hpa0, ih]

/-- `override_asset` keeps at most one override row per
`(scenario, asset)` pair, and a successful call leaves exactly one. -/
theorem override_asset_pair_count (s : Store) (sid aid : Int) (v g : Option Rat)
    (n : Option Bool) (ex : Bool)
    (hN : (s.scenario_assets.map (fun r => r.scenario_asset_id)).Nodup)
    (hc : (s.scenario_assets.filter (fun r => r.scenario_id == sid && r.original_asset_id == aid)).length ≤ 1) :
    ((override_asset s sid aid v g n ex).2.scenario_assets.filter (fun r => r.scenario_id == sid && r.original_asset_id == aid)).length ≤ 1 ∧
    (∀ rid, (override_asset s sid aid v g n ex).1 = .ok rid →
      ((override_asset s sid aid v g n ex).2.scenario_assets.filter (fun r => r.scenario_id == sid && r.original_asset_id == aid)).length = 1) := by
  rcases override_asset_body_table_cases s sid aid v g n ex with
    ⟨⟨e, he⟩, hst⟩ | ⟨hnone, hok, htab⟩ | ⟨row, hrow, hok, htab⟩
  · have h2 : (override_asset s sid aid v g n ex).2 = s :=
      transact_error_store _ s e (by rw [transact_fst]; exact he)
    rw [h2]
    refine ⟨hc, ?_⟩
    intro rid hr
    rw [show (override_asset s sid aid v g n ex).1 =
      (override_asset_body s sid aid v g n ex).1 from transact_fst _ _, he] at hr
    simp at hr
  · have h2 : (override_asset s sid aid v g n ex).2 =
        (override_asset_body s sid aid v g n ex).2 := transact_snd_ok hok
    have hcount := upsert_count_create s.scenario_assets
      (fun r => r.scenario_id == sid && r.original_asset_id == aid)
      (freshAssetOverrideRow s.next_id sid aid v g n ex) hnone
      (by simp [freshAssetOverrideRow])
    rw [h2, htab]
    exact ⟨le_of_eq hcount, fun _ _ => hcount⟩
  · have h2 : (override_asset s sid aid v g n ex).2 =
        (override_asset_body s sid aid v g n ex).2 := transact_snd_ok hok
    have hcount := upsert_count_update s.scenario_assets
      (fun r => r.scenario_id == sid && r.original_asset_id == aid)
      (fun r => r.scenario_asset_id) row (assetRowAfterUpdate row v g n ex) hrow rfl hN hc
    rw [h2, htab]
    exact ⟨le_of_eq hcount, fun _ _ => hcount⟩

/-- Outcome cases of `override_liability_body` on `scenario_liabilities`. -/
theorem override_liability_body_table_cases (s : Store) (sid lid : Int) (v ir : Option Rat)
    (n : Option Bool) (ex : Bool) :
    ((∃ e, (override_liability_body s sid lid v ir n ex).1 = .error e) ∧
      (override_liability_body s sid lid v ir n ex).2 = s) ∨
    (s.findLiabilityOverride sid lid = none ∧
      (override_liability_body s sid lid v ir n ex).1 = .ok s.next_id ∧
      (override_liability_body s sid lid v ir n ex).2.scenario_liabilities =
        s.scenario_liabilities ++ [freshLiabilityOverrideRow s.next_id sid lid v ir n ex]) ∨
    (∃ row, s.findLiabilityOverride sid lid = some row ∧
      (override_liability_body s sid lid v ir n ex).1 = .ok row.scenario_item_id ∧
      (override_liability_body s sid lid v ir n ex).2.scenario_liabilities =
        s.scenario_liabilities.map (fun r => if r.scenario_item_id == row.scenario_item_id then liabilityRowAfterUpdate row v ir n ex else r)) := by
  unfold override_liability_body
  split
  · exact .inl ⟨⟨_, rfl⟩, rfl⟩
  · split
    · exact .inl ⟨⟨_, rfl⟩, rfl⟩
    · split
      · split
        · exact .inl ⟨⟨_, rfl⟩, rfl⟩
        · split
          · rename_i row heq
            exact .inr (.inr ⟨row, heq, rfl, by simp [liabilityRowAfterUpdate]⟩)
          · rename_i heq
            exact .inr (.inl ⟨heq, rfl, by simp [freshLiabilityOverrideRow]⟩)
      · exact .inl ⟨⟨_, rfl⟩, rfl⟩

/-- Outcome cases of `override_inflow_outflow_body` on
`scenario_inflows_outflows`. -/
theorem override_inflow_outflow_body_table_cases (s : Store) (sid ioid : Int)
    (am : Option Rat) (sy ey : Option Int) (ai : Option Bool) (ex : Bool) :
    ((∃ e, (override_inflow_outflow_body s sid ioid am sy ey ai ex).1 = .error e) ∧
      (override_inflow_outflow_body s sid ioid am sy ey ai ex).2 = s) ∨
    (s.findInflowOutflowOverride sid ioid = none ∧
      (override_inflow_outflow_body s sid ioid am sy ey ai ex).1 = .ok s.next_id ∧
      (override_inflow_outflow_body s sid ioid am sy ey ai ex).2.scenario_inflows_outflows =
        s.scenario_inflows_outflows ++ [freshInflowOutflowOverrideRow s.next_id sid ioid am sy ey ai ex]) ∨
    (∃ row, s.findInflowOutflowOverride sid ioid = some row ∧
      (override_inflow_outflow_body s sid ioid am sy ey ai ex).1 = .ok row.scenario_item_id ∧
      (override_inflow_outflow_body s sid ioid am sy ey ai ex).2.scenario_inflows_outflows =
        s.scenario_inflows_outflows.map (fun r => if r.scenario_item_id == row.scenario_item_id then inflowOutflowRowAfterUpdate row am sy ey ai ex else r)) := by
  cases hio : s.findInflowOutflow ioid with
  | none =>
    refine .inl ⟨⟨DbError.validationError "Inflow/outflow not found", ?_⟩, ?_⟩ <;>
      simp [override_inflow_outflow_body, hio]
  | some io =>
    cases hsc : s.findScenario sid with
    | none =>
      refine .inl ⟨⟨DbError.validationError "Inflow/outflow not found", ?_⟩, ?_⟩ <;>
        simp [override_inflow_outflow_body, hio, hsc]
    | some sc =>
      by_cases hplan : (io.plan_id != sc.plan_id) = true
      · refine .inl ⟨⟨DbError.validationError
            "Inflow/outflow must belong to the scenario's plan", ?_⟩, ?_⟩ <;>
          simp [override_inflow_outflow_body, hio, hsc, hplan]
      · have hplan2 : (io.plan_id != sc.plan_id) = false := by simpa using hplan
        by_cases hy : sy.getD io.start_year > ey.getD io.end_year
        · refine .inl ⟨⟨DbError.validationError
              "Start year must be before or equal to end year", ?_⟩, ?_⟩ <;>
            simp [override_inflow_outflow_body, hio, hsc, hplan2, hy]
        · cases hf : s.findInflowOutflowOverride sid ioid with
          | some row =>
            refine .inr (.inr ⟨row, rfl, ?_, ?_⟩) <;>
              simp [override_inflow_outflow_body, hio, hsc, hplan2, hy, hf,
                inflowOutflowRowAfterUpdate]
          | none =>
            refine .inr (.inl ⟨rfl, ?_, ?_⟩) <;>
              simp [override_inflow_outflow_body, hio, hsc, hplan2, hy, hf,
                freshInflowOutflowOverrideRow]

/-- Outcome cases of `override_retirement_income_body` on
`scenario_retirement_income`. -/
theorem override_retirement_income_body_table_cases (s : Store) (sid ripid : Int)
    (am : Option Rat) (sa ea : Option Int) (ai n : Option Bool) (ex : Bool) :
    ((∃ e, (override_retirement_income_body s sid ripid am sa ea ai n ex).1 = .error e) ∧
      (override_retirement_income_body s sid ripid am sa ea ai n ex).2 = s) ∨
    (s.findRetirementIncomeOverride sid ripid = none ∧
      (override_retirement_income_body s sid ripid am sa ea ai n ex).1 = .ok s.next_id ∧
      (override_retirement_income_body s sid ripid am sa ea ai n ex).2.scenario_retirement_income =
        s.scenario_retirement_income ++ [freshRetirementIncomeOverrideRow s.next_id sid ripid am sa ea ai n ex]) ∨
    (∃ row, s.findRetirementIncomeOverride sid ripid = some row ∧
      (override_retirement_income_body s sid ripid am sa ea ai n ex).1 = .ok row.scenario_item_id ∧
      (override_retirement_income_body s sid ripid am sa ea ai n ex).2.scenario_retirement_income =
        s.scenario_retirement_income.map (fun r => if r.scenario_item_id == row.scenario_item_id then retirementIncomeRowAfterUpdate row am sa ea ai n ex else r)) := by
  cases hrip : s.findRetirementIncomePlan ripid with
  | none =>
    refine .inl ⟨⟨DbError.validationError "Retirement income plan not found", ?_⟩, ?_⟩ <;>
      simp [override_retirement_income_body, hrip]
  | some rip =>
    cases hsc : s.findScenario sid with
    | none =>
      refine .inl ⟨⟨DbError.validationError "Retirement income plan not found", ?_⟩,
          ?_⟩ <;>
        simp [override_retirement_income_body, hrip, hsc]
    | some sc =>
      by_cases hplan : (rip.plan_id != sc.plan_id) = true
      · refine .inl ⟨⟨DbError.validationError
            "Income plan must belong to the scenario's plan", ?_⟩, ?_⟩ <;>
          simp [override_retirement_income_body, hrip, hsc, hplan]
      · have hplan2 : (rip.plan_id != sc.plan_id) = false := by simpa using hplan
        by_cases hage : ((match sa, ea with
            | _, some e => some e
            | _, none => rip.end_age).any
              (fun e => decide (sa.getD rip.start_age > e))) = true
        · refine .inl ⟨⟨DbError.validationError
              "Start age must be before or equal to end age", ?_⟩, ?_⟩ <;>
            simp only [override_retirement_income_body, hrip, hsc, hplan2, hage,
              Bool.false_eq_true, if_false, if_true]
        · have hage2 : ((match sa, ea with
              | _, some e => some e
              | _, none => rip.end_age).any
                (fun e => decide (sa.getD rip.start_age > e))) = false := by
            simpa using hage
          cases hf : s.findRetirementIncomeOverride sid ripid with
          | some row =>
            refine .inr (.inr ⟨row, rfl, ?_, ?_⟩) <;>
              simp only [override_retirement_income_body, hrip, hsc, hplan2, hage2, hf,
                Bool.false_eq_true, if_false, retirementIncomeRowAfterUpdate]
          | none =>
            refine .inr (.inl ⟨rfl, ?_, ?_⟩) <;>
              simp only [override_retirement_income_body, hrip, hsc, hplan2, hage2, hf,
                Bool.false_eq_true, if_false, freshRetirementIncomeOverrideRow]

/-- Outcome cases of `update_person_overrides_body` on
`scenario_person_overrides`. -/
theorem update_person_overrides_body_table_cases (s : Store) (sid pid : Int)
    (ra fa : Option Int) :
    ((∃ e, (update_person_overrides_body s sid pid ra fa).1 = .error e) ∧
      (update_person_overrides_body s sid pid ra fa).2 = s) ∨
    (s.findPersonOverride sid pid = none ∧
      (update_person_overrides_body s sid pid ra fa).1 = .ok true ∧
      (update_person_overrides_body s sid pid ra fa).2.scenario_person_overrides =
        s.scenario_person_overrides ++ [freshPersonOverrideRow sid pid ra fa]) ∨
    (∃ row, s.findPersonOverride sid pid = some row ∧
      (update_person_overrides_body s sid pid ra fa).1 = .ok true ∧
      (update_person_overrides_body s sid pid ra fa).2.scenario_person_overrides =
        s.scenario_person_overrides.map (fun r => if r.scenario_id == sid && r.person_id == pid then personRowAfterUpdate row ra fa else r)) := by
  cases hp : s.findPerson pid with
  | none =>
    refine .inl ⟨⟨DbError.validationError "Person not found", ?_⟩, ?_⟩ <;>
      simp [update_person_overrides_body, hp]
  | some p =>
    cases hsc : s.findScenario sid with
    | none =>
      refine .inl ⟨⟨DbError.validationError "Person not found", ?_⟩, ?_⟩ <;>
        simp [update_person_overrides_body, hp, hsc]
    | some sc =>
      cases hpl : s.findPlan sc.plan_id with
      | none =>
        refine .inl ⟨⟨DbError.validationError "Person not found", ?_⟩, ?_⟩ <;>
          simp [update_person_overrides_body, hp, hsc, hpl]
      | some pl =>
        by_cases hh : (p.household_id != pl.household_id) = true
        · refine .inl ⟨⟨DbError.validationError
              "Person must belong to the scenario's household", ?_⟩, ?_⟩ <;>
            simp [update_person_overrides_body, hp, hsc, hpl, hh]
        · have hh2 : (p.household_id != pl.household_id) = false := by simpa using hh
          by_cases hra : ra.getD p.retirement_age ≤ 0
          · refine .inl ⟨⟨DbError.validationError "Retirement age must be positive",
                ?_⟩, ?_⟩ <;>
              simp [update_person_overrides_body, hp, hsc, hpl, hh2, hra]
          · by_cases hfa : fa.getD p.final_age ≤ ra.getD p.retirement_age
            · refine .inl ⟨⟨DbError.validationError
                  "Final age must be greater than retirement age", ?_⟩, ?_⟩ <;>
                simp [update_person_overrides_body, hp, hsc, hpl, hh2, hra, hfa]
            · cases hf : s.findPersonOverride sid pid with
              | some row =>
                refine .inr (.inr ⟨row, rfl, ?_, ?_⟩) <;>
                  simp [update_person_overrides_body, hp, hsc, hpl, hh2, hra, hfa, hf,
                    personRowAfterUpdate]
              | none =>
                refine .inr (.inl ⟨rfl, ?_, ?_⟩) <;>
                  simp [update_person_overrides_body, hp, hsc, hpl, hh2, hra, hfa, hf,
                    freshPersonOverrideRow]


/-- `override_liability` keeps at most one override row per
`(scenario, liability)` pair, and a successful call leaves exactly one. -/
theorem override_liability_pair_count (s : Store) (sid lid : Int) (v ir : Option Rat)
    (n : Option Bool) (ex : Bool)
    (hN : (s.scenario_liabilities.map (fun r => r.scenario_item_id)).Nodup)
    (hc : (s.scenario_liabilities.filter (fun r => r.scenario_id == sid && r.original_liability_id == lid)).length ≤ 1) :
    ((override_liability s sid lid v ir n ex).2.scenario_liabilities.filter (fun r => r.scenario_id == sid && r.original_liability_id == lid)).length ≤ 1 ∧
    (∀ rid, (override_liability s sid lid v ir n ex).1 = .ok rid →
      ((override_liability s sid lid v ir n ex).2.scenario_liabilities.filter (fun r => r.scenario_id == sid && r.original_liability_id == lid)).length = 1) := by
  rcases override_liability_body_table_cases s sid lid v ir n ex with
    ⟨⟨e, he⟩, hst⟩ | ⟨hnone, hok, htab⟩ | ⟨row, hrow, hok, htab⟩
  · have h2 : (override_liability s sid lid v ir n ex).2 = s :=
      transact_error_store _ s e (by rw [transact_fst]; exact he)
    rw [h2]
    refine ⟨hc, ?_⟩
    intro rid hr
    rw [show (override_liability s sid lid v ir n ex).1 =
      (override_liability_body s sid lid v ir n ex).1 from transact_fst _ _, he] at hr
    simp at hr
  · have h2 : (override_liability s sid lid v ir n ex).2 =
        (override_liability_body s sid lid v ir n ex).2 := transact_snd_ok hok
    have hcount := upsert_count_create s.scenario_liabilities
      (fun r => r.scenario_id == sid && r.original_liability_id == lid)
      (freshLiabilityOverrideRow s.next_id sid lid v ir n ex) hnone
      (by simp [freshLiabilityOverrideRow])
    rw [h2, htab]
    exact ⟨le_of_eq hcount, fun _ _ => hcount⟩
  · have h2 : (override_liability s sid lid v ir n ex).2 =
        (override_liability_body s sid lid v ir n ex).2 := transact_snd_ok hok
    have hcount := upsert_count_update s.scenario_liabilities
      (fun r => r.scenario_id == sid && r.original_liability_id == lid)
      (fun r => r.scenario_item_id) row (liabilityRowAfterUpdate row v ir n ex) hrow rfl
      hN hc
    rw [h2, htab]
    exact ⟨le_of_eq hcount, fun _ _ => hcount⟩

/-- `override_inflow_outflow` keeps at most one override row per
`(scenario, cash flow)` pair, and a successful call leaves exactly one. -/
theorem override_inflow_outflow_pair_count (s : Store) (sid ioid : Int) (am : Option Rat)
    (sy ey : Option Int) (ai : Option Bool) (ex : Bool)
    (hN : (s.scenario_inflows_outflows.map (fun r => r.scenario_item_id)).Nodup)
    (hc : (s.scenario_inflows_outflows.filter (fun r => r.scenario_id == sid && r.original_inflow_outflow_id == ioid)).length ≤ 1) :
    ((override_inflow_outflow s sid ioid am sy ey ai ex).2.scenario_inflows_outflows.filter (fun r => r.scenario_id == sid && r.original_inflow_outflow_id == ioid)).length ≤ 1 ∧
    (∀ rid, (override_inflow_outflow s sid ioid am sy ey ai ex).1 = .ok rid →
      ((override_inflow_outflow s sid ioid am sy ey ai ex).2.scenario_inflows_outflows.filter (fun r => r.scenario_id == sid && r.original_inflow_outflow_id == ioid)).length = 1) := by
  rcases override_inflow_outflow_body_table_cases s sid ioid am sy ey ai ex with
    ⟨⟨e, he⟩, hst⟩ | ⟨hnone, hok, htab⟩ | ⟨row, hrow, hok, htab⟩
  · have h2 : (override_inflow_outflow s sid ioid am sy ey ai ex).2 = s :=
      transact_error_store _ s e (by rw [transact_fst]; exact he)
    rw [h2]
    refine ⟨hc, ?_⟩
    intro rid hr
    rw [show (override_inflow_outflow s sid ioid am sy ey ai ex).1 =
      (override_inflow_outflow_body s sid ioid am sy ey ai ex).1 from transact_fst _ _,
      he] at hr
    simp at hr
  · have h2 : (override_inflow_outflow s sid ioid am sy ey ai ex).2 =
        (override_inflow_outflow_body s sid ioid am sy ey ai ex).2 := transact_snd_ok hok
    have hcount := upsert_count_create s.scenario_inflows_outflows
      (fun r => r.scenario_id == sid && r.original_inflow_outflow_id == ioid)
      (freshInflowOutflowOverrideRow s.next_id sid ioid am sy ey ai ex) hnone
      (by simp [freshInflowOutflowOverrideRow])
    rw [h2, htab]
    exact ⟨le_of_eq hcount, fun _ _ => hcount⟩
  · have h2 : (override_inflow_outflow s sid ioid am sy ey ai ex).2 =
        (override_inflow_outflow_body s sid ioid am sy ey ai ex).2 := transact_snd_ok hok
    have hcount := upsert_count_update s.scenario_inflows_outflows
      (fun r => r.scenario_id == sid && r.original_inflow_outflow_id == ioid)
      (fun r => r.scenario_item_id) row (inflowOutflowRowAfterUpdate row am sy ey ai ex)
      hrow rfl hN hc
    rw [h2, htab]
    exact ⟨le_of_eq hcount, fun _ _ => hcount⟩

/-- `override_retirement_income` keeps at most one override row per
`(scenario, income plan)` pair, and a successful call leaves exactly one. -/
theorem override_retirement_income_pair_count (s : Store) (sid ripid : Int)
    (am : Option Rat) (sa ea : Option Int) (ai n : Option Bool) (ex : Bool)
    (hN : (s.scenario_retirement_income.map (fun r => r.scenario_item_id)).Nodup)
    (hc : (s.scenario_retirement_income.filter (fun r => r.scenario_id == sid && r.original_income_plan_id == ripid)).length ≤ 1) :
    ((override_retirement_income s sid ripid am sa ea ai n ex).2.scenario_retirement_income.filter (fun r => r.scenario_id == sid && r.original_income_plan_id == ripid)).length ≤ 1 ∧
    (∀ rid, (override_retirement_income s sid ripid am sa ea ai n ex).1 = .ok rid →
      ((override_retirement_income s sid ripid am sa ea ai n ex).2.scenario_retirement_income.filter (fun r => r.scenario_id == sid && r.original_income_plan_id == ripid)).length = 1) := by
  rcases override_retirement_income_body_table_cases s sid ripid am sa ea ai n ex with
    ⟨⟨e, he⟩, hst⟩ | ⟨hnone, hok, htab⟩ | ⟨row, hrow, hok, htab⟩
  · have h2 : (override_retirement_income s sid ripid am sa ea ai n ex).2 = s :=
      transact_error_store _ s e (by rw [transact_fst]; exact he)
    rw [h2]
    refine ⟨hc, ?_⟩
    intro rid hr
    rw [show (override_retirement_income s sid ripid am sa ea ai n ex).1 =
      (override_retirement_income_body s sid ripid am sa ea ai n ex).1 from
      transact_fst _ _, he] at hr
    simp at hr
  · have h2 : (override_retirement_income s sid ripid am sa ea ai n ex).2 =
        (override_retirement_income_body s sid ripid am sa ea ai n ex).2 :=
      transact_snd_ok hok
    have hcount := upsert_count_create s.scenario_retirement_income
      (fun r => r.scenario_id == sid && r.original_income_plan_id == ripid)
      (freshRetirementIncomeOverrideRow s.next_id sid ripid am sa ea ai n ex) hnone
      (by simp [freshRetirementIncomeOverrideRow])
    rw [h2, htab]
    exact ⟨le_of_eq hcount, fun _ _ => hcount⟩
  · have h2 : (override_retirement_income s sid ripid am sa ea ai n ex).2 =
        (override_retirement_income_body s sid ripid am sa ea ai n ex).2 :=
      transact_snd_ok hok
    have hcount := upsert_count_update s.scenario_retirement_income
      (fun r => r.scenario_id == sid && r.original_income_plan_id == ripid)
      (fun r => r.scenario_item_id) row
      (retirementIncomeRowAfterUpdate row am sa ea ai n ex) hrow rfl hN hc
    rw [h2, htab]
    exact ⟨le_of_eq hcount, fun _ _ => hcount⟩

/-- `update_person_overrides` keeps at most one override row per
`(scenario, person)` pair, and a successful call leaves exactly one. -/
theorem update_person_overrides_pair_count (s : Store) (sid pid : Int) (ra fa : Option Int)
    (hc : (s.scenario_person_overrides.filter (fun r => r.scenario_id == sid && r.person_id == pid)).length ≤ 1) :
    ((update_person_overrides s sid pid ra fa).2.scenario_person_overrides.filter (fun r => r.scenario_id == sid && r.person_id == pid)).length ≤ 1 ∧
    (∀ b, (update_person_overrides s sid pid ra fa).1 = .ok b →
      ((update_person_overrides s sid pid ra fa).2.scenario_person_overrides.filter (fun r => r.scenario_id == sid && r.person_id == pid)).length = 1) := by
  rcases update_person_overrides_body_table_cases s sid pid ra fa with
    ⟨⟨e, he⟩, hst⟩ | ⟨hnone, hok, htab⟩ | ⟨row, hrow, hok, htab⟩
  · have h2 : (update_person_overrides s sid pid ra fa).2 = s :=
      transact_error_store _ s e (by rw [transact_fst]; exact he)
    rw [h2]
    refine ⟨hc, ?_⟩
    intro b hb
    rw [show (update_person_overrides s sid pid ra fa).1 =
      (update_person_overrides_body s sid pid ra fa).1 from transact_fst _ _, he] at hb
    simp at hb
  · have h2 : (update_person_overrides s sid pid ra fa).2 =
        (update_person_overrides_body s sid pid ra fa).2 := transact_snd_ok hok
    have hcount := upsert_count_create s.scenario_person_overrides
      (fun r => r.scenario_id == sid && r.person_id == pid)
      (freshPersonOverrideRow sid pid ra fa) hnone (by simp [freshPersonOverrideRow])
    rw [h2, htab]
    exact ⟨le_of_eq hcount, fun _ _ => hcount⟩
  · have h2 : (update_person_overrides s sid pid ra fa).2 =
        (update_person_overrides_body s sid pid ra fa).2 := transact_snd_ok hok
    have hrow2 : s.scenario_person_overrides.find?
        (fun r => r.scenario_id == sid && r.person_id == pid) = some row := hrow
    have hprow : (row.scenario_id == sid && row.person_id == pid) = true :=
      @List.find?_some _ (fun r => r.scenario_id == sid && r.person_id == pid) row
        s.scenario_person_overrides hrow2
    have hp2 : (fun r => r.scenario_id == sid && r.person_id == pid)
        (personRowAfterUpdate row ra fa) = true := by
      simpa [personRowAfterUpdate] using hprow
    have hcount := length_filter_map_update_all s.scenario_person_overrides
      (fun r => r.scenario_id == sid && r.person_id == pid)
      (personRowAfterUpdate row ra fa) hp2
    have hmem : row ∈ s.scenario_person_overrides.filter
        (fun r => r.scenario_id == sid && r.person_id == pid) :=
      List.mem_filter.mpr ⟨List.mem_of_find?_eq_some hrow2, hprow⟩
    have hpos : 0 < (s.scenario_person_overrides.filter
        (fun r => r.scenario_id == sid && r.person_id == pid)).length :=
      List.length_pos_of_mem hmem
    rw [h2, htab]
    refine ⟨?_, fun _ _ => ?_⟩ <;> rw [hcount] <;> omega

/-- Two identical `override_asset` calls on a scenario with no prior overrides:
the first creates the row, the second updates it in place and returns the same
rowid; exactly one row exists for the pair and `get_scenario` counts one asset
override. -/
theorem override_asset_twice_lemma (s : Store) (sid aid : Int) (X : Rat)
    (sc : Scenario) (pl : Plan) (a : Asset)
    (hsc : s.findScenario sid = some sc) (hpl : s.findPlan sc.plan_id = some pl)
    (ha : s.findAsset aid = some a) (hplan : a.plan_id = sc.plan_id)
    (hX : ¬ (X < 0))
    (hnone0 : s.scenario_assets.filter (fun r => r.scenario_id == sid) = [])
    (hfresh : ∀ r ∈ s.scenario_assets, r.scenario_asset_id ≠ s.next_id) :
    (override_asset s sid aid (some X) none none false).1 = .ok s.next_id ∧
    (override_asset (override_asset s sid aid (some X) none none false).2 sid aid
      (some X) none none false).1 = .ok s.next_id ∧
    ((override_asset (override_asset s sid aid (some X) none none false).2 sid aid
      (some X) none none false).2.scenario_assets.filter (fun r => r.scenario_id == sid && r.original_asset_id == aid)).length = 1 ∧
    (get_scenario (override_asset (override_asset s sid aid (some X) none none false).2
      sid aid (some X) none none false).2 sid).map (fun d => d.num_asset_overrides) =
      some 1 := by
  have hXb : ((some X).any (fun x => decide (x < 0))) = false := by
    simp [Option.any, hX]
  have hgb : ((none : Option Rat).any
      (fun x => decide (x < -200) || decide (x > 200))) = false := rfl
  have hnone : s.findAssetOverride sid aid = none := by
    apply List.find?_eq_none.mpr
    intro r hr
    have hns := List.filter_eq_nil_iff.mp hnone0 r hr
    simp only [Bool.and_eq_true]
    rintro ⟨h1, -⟩
    exact hns h1
  have hnone2 : List.find? (fun r => r.scenario_id == sid && r.original_asset_id == aid)
      s.scenario_assets = none := hnone
  have e1 := override_asset_create_eq s sid aid (some X) none none false a sc hXb hgb
    ha hsc hplan hnone
  rw [e1]
  have hrow1 : ({ s with scenario_assets := s.scenario_assets ++ [freshAssetOverrideRow s.next_id sid aid (some X) none none false], next_id := s.next_id + 1 } : Store).findAssetOverride sid aid =
      some (freshAssetOverrideRow s.next_id sid aid (some X) none none false) := by
    show (s.scenario_assets ++
      [freshAssetOverrideRow s.next_id sid aid (some X) none none false]).find? _ = _
    rw [List.find?_append, hnone2]
    simp [List.find?, freshAssetOverrideRow]
  have e2 := override_asset_update_eq
    { s with scenario_assets := s.scenario_assets ++ [freshAssetOverrideRow s.next_id sid aid (some X) none none false], next_id := s.next_id + 1 }
    sid aid (some X) none none false a sc
    (freshAssetOverrideRow s.next_id sid aid (some X) none none false)
    hXb hgb ha hsc hplan hrow1
  rw [e2]
  have htab2 : ((s.scenario_assets ++
      [freshAssetOverrideRow s.next_id sid aid (some X) none none false]).map
        (fun r => if r.scenario_asset_id == (freshAssetOverrideRow s.next_id sid aid (some X) none none false).scenario_asset_id then assetRowAfterUpdate (freshAssetOverrideRow s.next_id sid aid (some X) none none false) (some X) none none false else r)) =
      s.scenario_assets ++
        [assetRowAfterUpdate (freshAssetOverrideRow s.next_id sid aid (some X) none none false) (some X) none none false] := by
    rw [List.map_append]
    congr 1
    · have hcong : ∀ r ∈ s.scenario_assets,
          (if r.scenario_asset_id == (freshAssetOverrideRow s.next_id sid aid (some X) none none false).scenario_asset_id then assetRowAfterUpdate (freshAssetOverrideRow s.next_id sid aid (some X) none none false) (some X) none none false else r) = r := by
        intro r hr
        have hne := hfresh r hr
        rw [if_neg (by simpa [freshAssetOverrideRow] using hne)]
      rw [List.map_congr_left hcong]
      simp
    · simp [freshAssetOverrideRow]
  have hpairnil : s.scenario_assets.filter
      (fun r => r.scenario_id == sid && r.original_asset_id == aid) = [] := by
    apply List.filter_eq_nil_iff.mpr
    intro r hr
    have hns := List.filter_eq_nil_iff.mp hnone0 r hr
    simp only [Bool.and_eq_true]
    rintro ⟨h1, -⟩
    exact hns h1
  have hpairfilter : (s.scenario_assets ++
      [assetRowAfterUpdate (freshAssetOverrideRow s.next_id sid aid (some X) none none false) (some X) none none false]).filter
        (fun r => r.scenario_id == sid && r.original_asset_id == aid) =
      [assetRowAfterUpdate (freshAssetOverrideRow s.next_id sid aid (some X) none none false) (some X) none none false] := by
    rw [List.filter_append, hpairnil]
    simp [assetRowAfterUpdate, freshAssetOverrideRow]
  have hsidfilter : (s.scenario_assets ++
      [assetRowAfterUpdate (freshAssetOverrideRow s.next_id sid aid (some X) none none false) (some X) none none false]).filter
        (fun r => r.scenario_id == sid) =
      [assetRowAfterUpdate (freshAssetOverrideRow s.next_id sid aid (some X) none none false) (some X) none none false] := by
    rw [List.filter_append, hnone0]
    simp [assetRowAfterUpdate, freshAssetOverrideRow]
  refine ⟨rfl, rfl, ?_, ?_⟩
  · simp only [htab2]
    rw [hpairfilter]
    rfl
  · have hsc2 : List.find? (fun x => x.scenario_id == sid) s.scenarios = some sc := hsc
    have hpl2 : List.find? (fun x => x.plan_id == sc.plan_id) s.plans = some pl := hpl
    simp only [get_scenario, Store.findScenario, Store.findPlan, hsc2, hpl2, htab2,
      Option.map_some']
    rw [hsidfilter]
    simp [distinctCount, assetRowAfterUpdate, freshAssetOverrideRow]

/-- C4: `override_asset` is an idempotent upsert.  In a store where scenario
`sid` (belonging to asset `aid`'s plan) has no asset-override rows yet and
`next_id` is fresh, calling `override_asset sid aid (value := X)` twice with
the same non-negative `X` succeeds both times, the second call returns the
same override-row id as the first (the id minted by the first call), exactly
one override row for the pair `(sid, aid)` exists afterwards, and
`get_scenario sid` reports `num_asset_overrides = 1`.  Moreover, for every
override kind (asset, liability, inflow/outflow, retirement income, person),
a repeated upsert on the same (scenario, base-entity) pair never creates a
second row: whenever at most one row for the pair exists, at most one exists
after any further upsert call, and exactly one exists after any successful
call. -/
theorem override_upsert_idempotent (s : Store) (sid aid : Int) (X : Rat)
    (sc : Scenario) (pl : Plan) (a : Asset)
    (hsc : s.findScenario sid = some sc) (hpl : s.findPlan sc.plan_id = some pl)
    (ha : s.findAsset aid = some a) (hplan : a.plan_id = sc.plan_id)
    (hX : ¬ (X < 0))
    (hnone0 : s.scenario_assets.filter (fun r => r.scenario_id == sid) = [])
    (hfresh : ∀ r ∈ s.scenario_assets, r.scenario_asset_id ≠ s.next_id) :
    ((override_asset s sid aid (some X) none none false).1 = .ok s.next_id ∧
      (override_asset (override_asset s sid aid (some X) none none false).2 sid aid
        (some X) none none false).1 = .ok s.next_id ∧
      ((override_asset (override_asset s sid aid (some X) none none false).2 sid aid
        (some X) none none false).2.scenario_assets.filter
          (fun r => r.scenario_id == sid && r.original_asset_id == aid)).length = 1 ∧
      (get_scenario (override_asset (override_asset s sid aid (some X) none none false).2
        sid aid (some X) none none false).2 sid).map (fun d => d.num_asset_overrides) =
        some 1) ∧
    (∀ (t : Store) (sid2 aid2 : Int) (v g : Option Rat) (n : Option Bool) (ex : Bool),
      (t.scenario_assets.map (fun r => r.scenario_asset_id)).Nodup →
      (t.scenario_assets.filter (fun r => r.scenario_id == sid2 && r.original_asset_id == aid2)).length ≤ 1 →
      ((override_asset t sid2 aid2 v g n ex).2.scenario_assets.filter (fun r => r.scenario_id == sid2 && r.original_asset_id == aid2)).length ≤ 1 ∧
      (∀ rid, (override_asset t sid2 aid2 v g n ex).1 = .ok rid →
        ((override_asset t sid2 aid2 v g n ex).2.scenario_assets.filter (fun r => r.scenario_id == sid2 && r.original_asset_id == aid2)).length = 1)) ∧
    (∀ (t : Store) (sid2 lid : Int) (v ir : Option Rat) (n : Option Bool) (ex : Bool),
      (t.scenario_liabilities.map (fun r => r.scenario_item_id)).Nodup →
      (t.scenario_liabilities.filter (fun r => r.scenario_id == sid2 && r.original_liability_id == lid)).length ≤ 1 →
      ((override_liability t sid2 lid v ir n ex).2.scenario_liabilities.filter (fun r => r.scenario_id == sid2 && r.original_liability_id == lid)).length ≤ 1 ∧
      (∀ rid, (override_liability t sid2 lid v ir n ex).1 = .ok rid →
        ((override_liability t sid2 lid v ir n ex).2.scenario_liabilities.filter (fun r => r.scenario_id == sid2 && r.original_liability_id == lid)).length = 1)) ∧
    (∀ (t : Store) (sid2 ioid : Int) (am : Option Rat) (sy ey : Option Int)
        (ai : Option Bool) (ex : Bool),
      (t.scenario_inflows_outflows.map (fun r => r.scenario_item_id)).Nodup →
      (t.scenario_inflows_outflows.filter (fun r => r.scenario_id == sid2 && r.original_inflow_outflow_id == ioid)).length ≤ 1 →
      ((override_inflow_outflow t sid2 ioid am sy ey ai ex).2.scenario_inflows_outflows.filter (fun r => r.scenario_id == sid2 && r.original_inflow_outflow_id == ioid)).length ≤ 1 ∧
      (∀ rid, (override_inflow_outflow t sid2 ioid am sy ey ai ex).1 = .ok rid →
        ((override_inflow_outflow t sid2 ioid am sy ey ai ex).2.scenario_inflows_outflows.filter (fun r => r.scenario_id == sid2 && r.original_inflow_outflow_id == ioid)).length = 1)) ∧
    (∀ (t : Store) (sid2 ripid : Int) (am : Option Rat) (sa ea : Option Int)
        (ai n : Option Bool) (ex : Bool),
      (t.scenario_retirement_income.map (fun r => r.scenario_item_id)).Nodup →
      (t.scenario_retirement_income.filter (fun r => r.scenario_id == sid2 && r.original_income_plan_id == ripid)).length ≤ 1 →
      ((override_retirement_income t sid2 ripid am sa ea ai n ex).2.scenario_retirement_income.filter (fun r => r.scenario_id == sid2 && r.original_income_plan_id == ripid)).length ≤ 1 ∧
      (∀ rid, (override_retirement_income t sid2 ripid am sa ea ai n ex).1 = .ok rid →
        ((override_retirement_income t sid2 ripid am sa ea ai n ex).2.scenario_retirement_income.filter (fun r => r.scenario_id == sid2 && r.original_income_plan_id == ripid)).length = 1)) ∧
    (∀ (t : Store) (sid2 pid : Int) (ra fa : Option Int),
      (t.scenario_person_overrides.filter (fun r => r.scenario_id == sid2 && r.person_id == pid)).length ≤ 1 →
      ((update_person_overrides t sid2 pid ra fa).2.scenario_person_overrides.filter (fun r => r.scenario_id == sid2 && r.person_id == pid)).length ≤ 1 ∧
      (∀ b, (update_person_overrides t sid2 pid ra fa).1 = .ok b →
        ((update_person_overrides t sid2 pid ra fa).2.scenario_person_overrides.filter (fun r => r.scenario_id == sid2 && r.person_id == pid)).length = 1)) := by
  refine ⟨override_asset_twice_lemma s sid aid X sc pl a hsc hpl ha hplan hX hnone0 hfresh,
    fun t sid2 aid2 v g n ex hN hc => override_asset_pair_count t sid2 aid2 v g n ex hN hc,
    fun t sid2 lid v ir n ex hN hc => override_liability_pair_count t sid2 lid v ir n ex hN hc,
    fun t sid2 ioid am sy ey ai ex hN hc => override_inflow_outflow_pair_count t sid2 ioid am sy ey ai ex hN hc,
    fun t sid2 ripid am sa ea ai n ex hN hc => override_retirement_income_pair_count t sid2 ripid am sa ea ai n ex hN hc,
    fun t sid2 pid ra fa hc => update_person_overrides_pair_count t sid2 pid ra fa hc⟩

/-- Witness for C4 at the test store: double-overriding asset 30 of scenario 70
with value 150000 succeeds with id 100 and leaves `num_asset_overrides = 1`. -/
theorem override_upsert_idempotent_witness :
    (override_asset testStore 70 30 (some 150000) none none false).1 = .ok 100 ∧
    (get_scenario (override_asset (override_asset testStore 70 30
      (some 150000) none none false).2 70 30 (some 150000) none none false).2 70).map
        (fun d => d.num_asset_overrides) = some 1 := by
  have h := override_upsert_idempotent testStore 70 30 150000
    { scenario_id := 70, plan_id := 10, scenario_name := "Recession" }
    { plan_id := 10, household_id := 1, plan_name := "Plan", reference_person_id := 1,
      plan_creation_year := 2024 }
    { asset_id := 30, plan_id := 10, asset_category_id := 20, asset_name := "Brokerage",
      value := 100000, include_in_nest_egg := true, independent_growth_rate := none }
    rfl rfl rfl rfl (by norm_num) rfl (by intro r hr; cases hr)
  exact ⟨h.1.1, h.1.2.2.2⟩
